import Mathlib

/-!
Shallow embedding of betaflight `src/main/fc/config.c` (configuration
validation, activation and persistence engine).

Build configuration: the C file is compiled under a fixed, full-featured
define set, which this embedding mirrors:
defined:  USE_GPS, USE_GPS_RESCUE, USE_DYN_LPF, USE_THROTTLE_BOOST,
  USE_DSHOT, USE_DSHOT_TELEMETRY, USE_DSHOT_BITBANG, USE_OSD,
  USE_VTX_COMMON, USE_VTX_TABLE, USE_BEEPER, USE_TIMER, USE_ADC, USE_PPM,
  USE_PWM, USE_SERIAL_RX, USE_RX_MSP, USE_RX_SPI, USE_LED_STRIP,
  USE_TELEMETRY, USE_SERVOS, USE_ESC_SENSOR, USE_GYRO_DATA_ANALYSE,
  USE_BLACKBOX, USE_FLASHFS, USE_SDCARD, USE_ACC, USE_RANGEFINDER,
  USE_DASHBOARD, USE_TRANSPONDER, USE_SOFTSERIAL1
not defined: USE_SOFTSPI, STM32F10X, STM32F1, USE_QUAD_MIXER_ONLY,
  TARGET_VALIDATECONFIG, USE_CUSTOM_DEFAULTS, USE_MULTI_GYRO,
  USE_TARGET_CONFIG.

C machine integers are modelled as `Nat`/`Int`.  The float arithmetic of
`validateAndFixGyroConfig` (sampling time and motor-update restriction,
reciprocals of exact integer rates) is modelled exactly on the integer
rates; see `samplingRateHz` / `motorUpdateRestrictionHz`.
-/

namespace BF

/-! ### Constants from headers (values of compile-time constants used by
`config.c`; the headers are outside the extracted file, values taken from
the betaflight tree / the specification). -/

/-- `FILTER_FREQUENCY_MAX` from `common/filter.h`. -/
def FILTER_FREQUENCY_MAX : Nat := 4000

/-- `CONTROL_RATE_PROFILE_COUNT` from `fc/controlrate_profile.h`. -/
def CONTROL_RATE_PROFILE_COUNT : Nat := 6

/-- `MAX_PID_PROCESS_DENOM` from `flight/pid.h`. -/
def MAX_PID_PROCESS_DENOM : Nat := 16

/-- `BRUSHLESS_MOTORS_PWM_RATE` from `pg/motor.h`. -/
def BRUSHLESS_MOTORS_PWM_RATE : Nat := 480

/-- `MAX_AUTO_DETECT_CELL_COUNT` from `sensors/battery.h`. -/
def MAX_AUTO_DETECT_CELL_COUNT : Int := 8

/-- `AUTO_PROFILE_CELL_COUNT_STAY` from `flight/pid.h`: sentinel meaning
"stay on this profile irrespective of the detected cell count". -/
def AUTO_PROFILE_CELL_COUNT_STAY : Int := 0

/-- `AUTO_PROFILE_CELL_COUNT_CHANGE` from `flight/pid.h`: lowest legal tag. -/
def AUTO_PROFILE_CELL_COUNT_CHANGE : Int := -1

/-- Motor PWM protocol enum `motorPwmProtocolTypes_e` from
`drivers/pwm_output.h` (values in declaration order). -/
def PWM_TYPE_STANDARD : Nat := 0

def PWM_TYPE_ONESHOT125 : Nat := 1

def PWM_TYPE_ONESHOT42 : Nat := 2

def PWM_TYPE_MULTISHOT : Nat := 3

def PWM_TYPE_BRUSHED : Nat := 4

def PWM_TYPE_DSHOT150 : Nat := 5

def PWM_TYPE_DSHOT300 : Nat := 6

def PWM_TYPE_DSHOT600 : Nat := 7

def PWM_TYPE_PROSHOT1000 : Nat := 8

/-- `GYRO_HARDWARE_LPF_1KHZ_SAMPLE` from `sensors/gyro.h`. -/
def GYRO_HARDWARE_LPF_1KHZ_SAMPLE : Nat := 1

/-- `DYNAMIC_FILTER_MAX_SUPPORTED_LOOP_TIME  HZ_TO_INTERVAL_US(2000)`,
i.e. 500 us (`config.c` line 95). -/
def DYNAMIC_FILTER_MAX_SUPPORTED_LOOP_TIME : Nat := 500

/-- `MIXER_CUSTOM`, `MIXER_CUSTOM_AIRPLANE`, `MIXER_CUSTOM_TRI` from
`flight/mixer.h`. -/
def MIXER_CUSTOM : Nat := 23

def MIXER_CUSTOM_AIRPLANE : Nat := 24

def MIXER_CUSTOM_TRI : Nat := 25

/-- `GPS_MSP` from `io/gps.h` (`gpsProvider_e`). -/
def GPS_MSP : Nat := 2

/-- `FAILSAFE_PROCEDURE_DROP_IT` / `FAILSAFE_PROCEDURE_GPS_RESCUE` from
`flight/failsafe.h`. -/
def FAILSAFE_PROCEDURE_DROP_IT : Nat := 1

def FAILSAFE_PROCEDURE_GPS_RESCUE : Nat := 2

/-- `BOXARM` from `fc/rc_modes.h` (first box id). -/
def BOXARM : Nat := 0

/-- `BOXGPSRESCUE` from `fc/rc_modes.h` (some fixed non-ARM box id). -/
def BOXGPSRESCUE : Nat := 46

/-- `DSHOT_CMD_BEACON1` .. `DSHOT_CMD_BEACON5` from
`drivers/dshot_command.h`. -/
def DSHOT_CMD_BEACON1 : Nat := 1

def DSHOT_CMD_BEACON5 : Nat := 5

/-- `BEEPER_ALLOWED_MODES` bitmask from `io/beeper.h` (exact value does not
matter to any claim; a fixed 24-bit mask). -/
def BEEPER_ALLOWED_MODES : Nat := 0xffffff

/-- `DSHOT_BEACON_ALLOWED_MODES` bitmask from `io/beeper.h`. -/
def DSHOT_BEACON_ALLOWED_MODES : Nat := 0x3f

/-- `dshotBitbangMode_e` from `pg/motor.h`. -/
def DSHOT_BITBANG_OFF : Nat := 0

def DSHOT_BITBANG_ON : Nat := 1

def DSHOT_BITBANG_AUTO : Nat := 2

/-- `rcInterpolationChannels_e` from `rx/rx.h` (declaration order). -/
def INTERPOLATION_CHANNELS_RP : Nat := 0

def INTERPOLATION_CHANNELS_RPY : Nat := 1

def INTERPOLATION_CHANNELS_RPYT : Nat := 2

def INTERPOLATION_CHANNELS_T : Nat := 3

def INTERPOLATION_CHANNELS_RPT : Nat := 4

/-- `SCHEDULER_OPTIMIZE_RATE_OFF/ON/AUTO` from `scheduler/scheduler.h`. -/
def SCHEDULER_OPTIMIZE_RATE_OFF : Nat := 0

def SCHEDULER_OPTIMIZE_RATE_ON : Nat := 1

def SCHEDULER_OPTIMIZE_RATE_AUTO : Nat := 2

/-- `CONFIGURATION_STATE_CONFIGURED` from `fc/config.h`. -/
def CONFIGURATION_STATE_CONFIGURED : Nat := 2

/-- `ALIGN_DEFAULT` and `ALIGN_CUSTOM` from `common/sensor_alignment.h`. -/
def ALIGN_DEFAULT : Nat := 0

def ALIGN_CUSTOM : Nat := 9

/-- `OSD_TIMER_SRC_COUNT` / `OSD_TIMER_PREC_COUNT` from `osd/osd.h`. -/
def OSD_TIMER_SRC_COUNT : Nat := 3

def OSD_TIMER_PREC_COUNT : Nat := 2

/-- `ARMING_DISABLED_REBOOT_REQUIRED` flag bit (from `fc/runtime_config.h`);
modelled as a dedicated boolean in the world state. -/
def OSD_TIMER_DEFAULT : Nat := 0x01

/-! ### Data model: parameter-group records touched by `config.c`. -/

/-- One axis of a PID gain set: only the fields `config.c` reads or
writes (`pid[axis].D`, `pid[axis].F`). -/
@[ext]
structure AxisPid where
  D : Nat
  F : Nat
  deriving DecidableEq, Repr, Inhabited

/-- `pidProfile_t`: the fields of a PID profile touched by `config.c`. -/
@[ext]
structure PidProfile where
  dterm_lowpass_hz : Nat
  dterm_lowpass2_hz : Nat
  dterm_notch_hz : Nat
  dterm_notch_cutoff : Nat
  dyn_lpf_dterm_min_hz : Nat
  dyn_lpf_dterm_max_hz : Nat
  motor_output_limit : Nat
  auto_profile_cell_count : Int
  pidRoll : AxisPid
  pidPitch : AxisPid
  pidYaw : AxisPid
  d_minRoll : Nat
  d_minPitch : Nat
  d_minYaw : Nat
  throttle_boost : Nat
  deriving DecidableEq, Repr, Inhabited

/-- `gyroConfig_t` fields touched by `validateAndFixGyroConfig`. -/
@[ext]
structure GyroCfg where
  gyro_lowpass_hz : Nat
  gyro_lowpass2_hz : Nat
  gyro_soft_notch_hz_1 : Nat
  gyro_soft_notch_cutoff_1 : Nat
  gyro_soft_notch_hz_2 : Nat
  gyro_soft_notch_cutoff_2 : Nat
  dyn_lpf_gyro_min_hz : Nat
  dyn_lpf_gyro_max_hz : Nat
  gyro_hardware_lpf : Nat
  gyro_sync_denom : Nat
  deriving DecidableEq, Repr

/-- `motorDevConfig_t` fields touched by `config.c`. -/
@[ext]
structure MotorDevCfg where
  motorPwmProtocol : Nat
  motorPwmRate : Nat
  useUnsyncedPwm : Bool
  useDshotTelemetry : Bool
  useDshotBitbang : Nat
  useBurstDshot : Bool
  deriving DecidableEq, Repr

/-- `motorConfig_t` fields touched by `config.c`. -/
@[ext]
structure MotorCfg where
  dev : MotorDevCfg
  mincommand : Nat
  deriving DecidableEq, Repr

/-- The feature bits `config.c` manipulates under the chosen define set. -/
@[ext]
structure Features where
  rxPpm : Bool
  rxParallelPwm : Bool
  rxSerial : Bool
  rxMsp : Bool
  rxSpi : Bool
  gps : Bool
  threeD : Bool
  escSensor : Bool
  dynamicFilter : Bool
  rssiAdc : Bool
  softSpi : Bool
  deriving DecidableEq, Repr

/-- `rxConfig_t` fields touched by `config.c`.  `rcSmoothingEnabled`
models the value of `rcSmoothingIsEnabled()` (a pure predicate over rx
configuration fields that `config.c` never writes). -/
@[ext]
structure RxCfg where
  rssi_channel : Nat
  rssi_src_frame_errors : Bool
  rcInterpolationChannels : Nat
  rcSmoothingEnabled : Bool
  deriving DecidableEq, Repr

/-- Abstraction of `serialConfig_t` at the granularity `config.c`
observes it: overall structural validity (`isSerialConfigValid`) and
whether a port is assigned `FUNCTION_GPS` / `FUNCTION_ESC_SENSOR`
(`findSerialPortConfig`). -/
@[ext]
structure SerialCfg where
  valid : Bool
  hasGpsPort : Bool
  hasEscSensorPort : Bool
  deriving DecidableEq, Repr

/-- Modelled from the spec: `pgResetFn_serialConfig` resets the serial
configuration to compiled defaults, which are structurally valid and
assign no port function. -/
def serialConfigDefault : SerialCfg :=
  { valid := true, hasGpsPort := false, hasEscSensorPort := false }

/-- `modeActivationCondition_t` fields touched by `config.c`:
`modeId` and `linkedTo` (0 = not linked). -/
@[ext]
structure Mac where
  modeId : Nat
  linkedTo : Nat
  deriving DecidableEq, Repr

/-- Default (zeroed) mode activation condition. -/
def macDefault : Mac := { modeId := 0, linkedTo := 0 }

/-- `failsafeConfig_t` field touched by `config.c`. -/
@[ext]
structure FailsafeCfg where
  failsafe_procedure : Nat
  deriving DecidableEq, Repr

/-- `systemConfig_t` fields touched by `config.c`. -/
@[ext]
structure SystemCfg where
  pidProfileIndex : Nat
  activeRateProfile : Nat
  configurationState : Nat
  schedulerOptimizeRate : Nat
  deriving DecidableEq, Repr

/-- `pidConfig_t` field touched by `config.c`. -/
@[ext]
structure PidCfg where
  pid_process_denom : Nat
  deriving DecidableEq, Repr

/-- Beeper configuration fields touched by `config.c`. -/
@[ext]
structure BeeperCfg where
  beeper_off_flags : Nat
  dshotBeaconOffFlags : Nat
  dshotBeaconTone : Nat
  devFrequency : Nat
  deriving DecidableEq, Repr

/-- `vtxSettingsConfig_t` fields touched by `config.c`. -/
@[ext]
structure VtxSettings where
  band : Nat
  channel : Nat
  power : Nat
  freq : Nat
  deriving DecidableEq, Repr

/-- `vtxTableConfig_t` bounds read (never written) by `config.c`. -/
@[ext]
structure VtxTable where
  bands : Nat
  channels : Nat
  powerLevels : Nat
  deriving DecidableEq, Repr

/-- A standard/custom sensor-alignment pair
(`alignment`, `customAlignment`). -/
@[ext]
structure AlignPair where
  standard : Nat
  custom : Nat
  deriving DecidableEq, Repr

/-- `gpsConfig_t` field read by `config.c`. -/
@[ext]
structure GpsCfg where
  provider : Nat
  deriving DecidableEq, Repr

/-- `mixerConfig_t` field touched by `config.c`. -/
@[ext]
structure MixerCfg where
  mixerMode : Nat
  deriving DecidableEq, Repr

/-- The in-memory configuration store: every parameter group `config.c`
reads or writes, plus the two "current profile" pointers kept by the
module (modelled by the index the pointer was last loaded from).  The
number of PID profiles (`PID_PROFILE_COUNT`) is the length of
`pidProfiles`. -/
@[ext]
structure Config where
  mixer : MixerCfg
  serial : SerialCfg
  gpsCfg : GpsCfg
  features : Features
  pidProfiles : List PidProfile
  motor : MotorCfg
  gyro : GyroCfg
  pidCfg : PidCfg
  system : SystemCfg
  rx : RxCfg
  failsafe : FailsafeCfg
  macs : List Mac
  beeper : BeeperCfg
  osdTimers : List Nat
  vtxSettings : VtxSettings
  vtxTable : VtxTable
  compassAlign : AlignPair
  gyroDev0Align : AlignPair
  currentPidProfileIndex : Nat
  currentRateProfileIndex : Nat
  deriving DecidableEq, Repr

/-- Detected gyro sensor model (`gyroMpuDetectionResult()->sensor`),
restricted to the cases `validateAndFixGyroConfig` distinguishes. -/
inductive GyroSensor where
  | icm20649 : GyroSensor
  | bmi160 : GyroSensor
  | other : GyroSensor
  deriving DecidableEq, Repr

/-- Read-only environment: values `config.c` reads from collaborators
that are not configuration state. -/
structure Env where
  sensor : GyroSensor
  /-- `gyro.targetLooptime` in microseconds. -/
  targetLooptimeUs : Nat
  /-- whether `timerGetByTag(beeperDevConfig()->ioTag)` finds a timer. -/
  beeperTimerAvailable : Bool
  /-- `mixers[m].motorCount && mixers[m].motor == NULL` for mixer mode m. -/
  mixerMotorMissing : Nat → Bool
  /-- `mixers[m].useServo && servoMixers[m].servoRuleCount == 0`. -/
  mixerServoMissing : Nat → Bool


/-! ### `validateAndFixConfig`, rule by rule, in source order.

Each C rule block touches a small, disjoint set of configuration fields;
every rule below is one parallel record update built from per-group
component functions, each component being exactly the function the
sequential C statements compute on that group. -/

/-- `adjustFilterLimit` (config.c:175): clamp `*parm` to
`FILTER_FREQUENCY_MAX`, replacing an over-limit value by `resetValue`. -/
def adjustFilterLimit (parm resetValue : Nat) : Nat :=
  if parm > FILTER_FREQUENCY_MAX then resetValue else parm

/-- config.c:189-198 on the mixer mode: reset an unsupported non-custom
mixer mode to a custom variant; both inner `if`s test the local copy
`mixerMode` of the original mode, and the servo check overrides the
motor check. -/
def mixerModeFix (e : Env) (m : Nat) : Nat :=
  if ¬(m = MIXER_CUSTOM ∨ m = MIXER_CUSTOM_AIRPLANE ∨ m = MIXER_CUSTOM_TRI) then
    if e.mixerServoMissing m then MIXER_CUSTOM_AIRPLANE
    else if e.mixerMotorMissing m then MIXER_CUSTOM
    else m
  else m

/-- config.c:184-199 applied to the configuration. -/
def vfcMixer (e : Env) (c : Config) : Config :=
  { c with mixer := { mixerMode := mixerModeFix e c.mixer.mixerMode } }

/-- config.c:201-203: reset a structurally invalid serial configuration
to compiled defaults. -/
def serialFix (s : SerialCfg) : SerialCfg :=
  if ¬s.valid then serialConfigDefault else s

/-- config.c:201-203 applied to the configuration. -/
def vfcSerial (c : Config) : Config :=
  { c with serial := serialFix c.serial }

/-- config.c:205-209: with an MSP GPS provider, remove the configured
GPS serial port. -/
def gpsSerialFix (provider : Nat) (s : SerialCfg) : SerialCfg :=
  if provider = GPS_MSP ∧ s.hasGpsPort then { s with hasGpsPort := false } else s

/-- config.c:211-217: disable `FEATURE_GPS` when a non-MSP provider has
no GPS serial port (`gpsSerial` as captured at line 206, before the
removal). -/
def gpsFeatureFix (provider : Nat) (gpsSerial : Bool) (f : Features) : Features :=
  if ¬(provider = GPS_MSP) ∧ ¬gpsSerial then { f with gps := false } else f

/-- config.c:205-217 applied to the configuration. -/
def vfcGps (c : Config) : Config :=
  { c with
    serial := gpsSerialFix c.gpsCfg.provider c.serial
    features := gpsFeatureFix c.gpsCfg.provider c.serial.hasGpsPort c.features }

/-- config.c:219-253, body of the per-profile loop: filter clamps, notch
consistency, dynamic-lowpass consistency, motor-output limit,
auto-profile cell-count range, and per-axis d_min consistency.  Each
field of the result is the value the sequential C statements leave it
with. -/
def fixPidProfile (p : PidProfile) : PidProfile :=
  let lp := adjustFilterLimit p.dterm_lowpass_hz FILTER_FREQUENCY_MAX
  let lp2 := adjustFilterLimit p.dterm_lowpass2_hz FILTER_FREQUENCY_MAX
  let nh := adjustFilterLimit p.dterm_notch_hz FILTER_FREQUENCY_MAX
  let nc := adjustFilterLimit p.dterm_notch_cutoff 0
  { p with
    dterm_lowpass_hz := lp
    dterm_lowpass2_hz := lp2
    dterm_notch_hz := if nc ≥ nh then 0 else nh
    dterm_notch_cutoff := nc
    dyn_lpf_dterm_min_hz :=
      if p.dyn_lpf_dterm_min_hz > p.dyn_lpf_dterm_max_hz then 0
      else p.dyn_lpf_dterm_min_hz
    motor_output_limit :=
      if p.motor_output_limit > 100 ∨ p.motor_output_limit = 0 then 100
      else p.motor_output_limit
    auto_profile_cell_count :=
      if p.auto_profile_cell_count > MAX_AUTO_DETECT_CELL_COUNT ∨
          p.auto_profile_cell_count < AUTO_PROFILE_CELL_COUNT_CHANGE then
        AUTO_PROFILE_CELL_COUNT_STAY
      else p.auto_profile_cell_count
    d_minRoll := if p.d_minRoll ≥ p.pidRoll.D then 0 else p.d_minRoll
    d_minPitch := if p.d_minPitch ≥ p.pidPitch.D then 0 else p.d_minPitch
    d_minYaw := if p.d_minYaw ≥ p.pidYaw.D then 0 else p.d_minYaw }

/-- config.c:219-253: the per-profile loop over all PID profiles. -/
def vfcProfiles (c : Config) : Config :=
  { c with pidProfiles := c.pidProfiles.map fixPidProfile }

/-- config.c:255-257: brushed motors disable `FEATURE_3D`. -/
def brushedFeaturesFix (protocol : Nat) (f : Features) : Features :=
  if protocol = PWM_TYPE_BRUSHED then { f with threeD := false } else f

/-- config.c:258-260: brushed motors force `mincommand >= 1000`. -/
def brushedMincommandFix (protocol mincommand : Nat) : Nat :=
  if protocol = PWM_TYPE_BRUSHED ∧ mincommand < 1000 then 1000 else mincommand

/-- config.c:255-261 applied to the configuration. -/
def vfcBrushed (c : Config) : Config :=
  { c with
    features := brushedFeaturesFix c.motor.dev.motorPwmProtocol c.features
    motor := { c.motor with mincommand :=
        brushedMincommandFix c.motor.dev.motorPwmProtocol c.motor.mincommand } }

/-- config.c:263-265: cap the PWM rate of standard PWM at
`BRUSHLESS_MOTORS_PWM_RATE`. -/
def standardRateFix (dev : MotorDevCfg) : MotorDevCfg :=
  if dev.motorPwmProtocol = PWM_TYPE_STANDARD ∧
      dev.motorPwmRate > BRUSHLESS_MOTORS_PWM_RATE then
    { dev with motorPwmRate := BRUSHLESS_MOTORS_PWM_RATE }
  else dev

/-- config.c:263-265 applied to the configuration. -/
def vfcStandardRate (c : Config) : Config :=
  { c with motor := { c.motor with dev := standardRateFix c.motor.dev } }

/-- config.c:593-614: the gyro sampling rate in Hz.  The float
`samplingTime` computed there is exactly the reciprocal `1 /
samplingRateHz` seconds (`1.0f/9000.0f`, `0.0003125f = 1/3200`,
`0.000125f = 1/8000`, `1.0f/1100.0f`, `0.001f = 1/1000`); the timing
comparisons below are carried out on the exact integer rates. -/
def samplingRateHz (e : Env) (hardwareLpf : Nat) : Nat :=
  if hardwareLpf = GYRO_HARDWARE_LPF_1KHZ_SAMPLE then
    match e.sensor with
    | .icm20649 => 1100
    | _ => 1000
  else
    match e.sensor with
    | .icm20649 => 9000
    | .bmi160 => 3200
    | .other => 8000

/-- config.c:617-640: the maximum safe motor update rate of the selected
protocol, in Hz.  The float `motorUpdateRestriction` computed there is
exactly the reciprocal `1 / motorUpdateRestrictionHz` seconds
(`1.0f/BRUSHLESS_MOTORS_PWM_RATE`, `0.0005f = 1/2000`, `0.0001f =
1/10000`, `0.000250f = 1/4000`, `0.00003125f = 1/32000`). -/
def motorUpdateRestrictionHz (protocol : Nat) : Nat :=
  if protocol = PWM_TYPE_STANDARD then BRUSHLESS_MOTORS_PWM_RATE
  else if protocol = PWM_TYPE_ONESHOT125 then 2000
  else if protocol = PWM_TYPE_ONESHOT42 then 10000
  else if protocol = PWM_TYPE_DSHOT150 then 4000
  else if protocol = PWM_TYPE_DSHOT300 then 10000
  else 32000

/-- config.c:554-559: disable the dynamic filter if the gyro loop is
slower than 2 kHz. -/
def dynFilterFeatureFix (e : Env) (f : Features) : Features :=
  if e.targetLooptimeUs > DYNAMIC_FILTER_MAX_SUPPORTED_LOOP_TIME then
    { f with dynamicFilter := false }
  else f

/-- config.c:554-559 applied to the configuration. -/
def vfgDynFilter (e : Env) (c : Config) : Config :=
  { c with features := dynFilterFeatureFix e c.features }

/-- config.c:561-582: gyro filter limit clamps, notch cutoff consistency
and dynamic-lowpass consistency, on the gyro group alone. -/
def fixGyroFilters (g : GyroCfg) : GyroCfg :=
  let nh1 := adjustFilterLimit g.gyro_soft_notch_hz_1 FILTER_FREQUENCY_MAX
  let nc1 := adjustFilterLimit g.gyro_soft_notch_cutoff_1 0
  let nh2 := adjustFilterLimit g.gyro_soft_notch_hz_2 FILTER_FREQUENCY_MAX
  let nc2 := adjustFilterLimit g.gyro_soft_notch_cutoff_2 0
  { g with
    gyro_lowpass_hz := adjustFilterLimit g.gyro_lowpass_hz FILTER_FREQUENCY_MAX
    gyro_lowpass2_hz := adjustFilterLimit g.gyro_lowpass2_hz FILTER_FREQUENCY_MAX
    gyro_soft_notch_hz_1 := if nc1 ≥ nh1 then 0 else nh1
    gyro_soft_notch_cutoff_1 := nc1
    gyro_soft_notch_hz_2 := if nc2 ≥ nh2 then 0 else nh2
    gyro_soft_notch_cutoff_2 := nc2
    dyn_lpf_gyro_min_hz :=
      if g.dyn_lpf_gyro_min_hz > g.dyn_lpf_gyro_max_hz then 0
      else g.dyn_lpf_gyro_min_hz }

/-- config.c:561-582 applied to the configuration. -/
def vfgFilters (c : Config) : Config :=
  { c with gyro := fixGyroFilters c.gyro }

/-- config.c:584-587 on the gyro group: a 1 kHz hardware lowpass forces
the gyro sync divisor to 1. -/
def gyro1khzFix (g : GyroCfg) : GyroCfg :=
  if g.gyro_hardware_lpf = GYRO_HARDWARE_LPF_1KHZ_SAMPLE then
    { g with gyro_sync_denom := 1 }
  else g

/-- config.c:584-587 on the pid group: a 1 kHz hardware lowpass forces
`pid_process_denom` to 1. -/
def pid1khzFix (g : GyroCfg) (p : PidCfg) : PidCfg :=
  if g.gyro_hardware_lpf = GYRO_HARDWARE_LPF_1KHZ_SAMPLE then
    { pid_process_denom := 1 }
  else p

/-- config.c:584-587 applied to the configuration. -/
def vfg1khz (c : Config) : Config :=
  { c with gyro := gyro1khzFix c.gyro, pidCfg := pid1khzFix c.gyro c.pidCfg }

/-- config.c:642-647 (unsynced-PWM branch): cap the PWM rate of low-rate
(non-standard, non-dshot) protocols at `maxEscRate =
lrintf(1.0f / motorUpdateRestriction)`, which is exactly the protocol's
restriction rate in Hz. -/
def unsyncedRateFix (dev : MotorDevCfg) : MotorDevCfg :=
  if dev.useUnsyncedPwm ∧ dev.motorPwmProtocol ≤ PWM_TYPE_BRUSHED ∧
      ¬(dev.motorPwmProtocol = PWM_TYPE_STANDARD) then
    { dev with
      motorPwmRate := min dev.motorPwmRate (motorUpdateRestrictionHz dev.motorPwmProtocol) }
  else dev

/-- config.c:648-654 (synced branch): if the pid loop time is below the
protocol restriction, raise `pid_process_denom` to the minimum restoring
feasibility — truncated toward zero by the int conversion inside
`constrain`, clamped between 1 and `MAX_PID_PROCESS_DENOM` — never
lowering it.  On the exact rates: `pidLooptime < motorUpdateRestriction`
is `gyroSyncDenom * pidProcessDenom / fs < 1 / fr`, i.e.
`gyroSyncDenom * pidProcessDenom * fr < fs`, and the truncated
`motorUpdateRestriction / (samplingTime * gyroSyncDenom)` is the `Nat`
division `fs / (fr * gyroSyncDenom)`.  (With `gyro_sync_denom = 0` the C
float division is undefined behavior; `Nat` division by zero yields 0
here, which `constrain` lifts to 1.) -/
def loopPidFix (e : Env) (g : GyroCfg) (unsyncedPwm : Bool) (protocol : Nat)
    (p : PidCfg) : PidCfg :=
  if unsyncedPwm then p
  else
    let fs := samplingRateHz e g.gyro_hardware_lpf
    let fr := motorUpdateRestrictionHz protocol
    if g.gyro_sync_denom * p.pid_process_denom * fr < fs then
      { pid_process_denom := max p.pid_process_denom
          (min (max (fs / (fr * g.gyro_sync_denom)) 1) MAX_PID_PROCESS_DENOM) }
    else p

/-- config.c:642-654 applied to the configuration. -/
def vfgLooptime (e : Env) (c : Config) : Config :=
  { c with
    motor := { c.motor with dev := unsyncedRateFix c.motor.dev }
    pidCfg := loopPidFix e c.gyro c.motor.dev.useUnsyncedPwm
        c.motor.dev.motorPwmProtocol c.pidCfg }

/-- config.c:670-677: reset out-of-bounds profile indices to slot 0
(the two checks are on independent fields). -/
def indexFix (pidProfileCount : Nat) (s : SystemCfg) : SystemCfg :=
  { s with
    activeRateProfile :=
      if s.activeRateProfile ≥ CONTROL_RATE_PROFILE_COUNT then 0
      else s.activeRateProfile
    pidProfileIndex :=
      if s.pidProfileIndex ≥ pidProfileCount then 0 else s.pidProfileIndex }

/-- config.c:670-678: bounds checks and the `loadControlRateProfile` /
`loadPidProfile` pointer reloads. -/
def vfgIndexes (c : Config) : Config :=
  { c with
    system := indexFix c.pidProfiles.length c.system
    currentRateProfileIndex := (indexFix c.pidProfiles.length c.system).activeRateProfile
    currentPidProfileIndex := (indexFix c.pidProfiles.length c.system).pidProfileIndex }

/-- config.c:552-679 `validateAndFixGyroConfig`: dynamic-filter loop-time
check, gyro filter clamps and consistency, hardware-lpf 1 kHz forcing,
motor-protocol loop-time restriction, and profile-index bounds checks
with pointer reloads.  (The blackbox device checks of lines 656-668 are
compiled out in this build: both `USE_FLASHFS` and `USE_SDCARD` are
defined.) -/
def validateAndFixGyroConfig (e : Env) (c : Config) : Config :=
  vfgIndexes (vfgLooptime e (vfg1khz (vfgFilters (vfgDynFilter e c))))

/-- config.c:269-273: derive the custom alignment from a standard
alignment setting.  `buildAlignmentFromStandardAlignment` (in
`common/sensor_alignment.c`, outside the extracted file) leaves the
custom alignment alone for `ALIGN_DEFAULT`/`ALIGN_CUSTOM` and otherwise
overwrites it with the canonical rotation of the standard alignment,
modelled here by the standard alignment's own code. -/
def buildAlignment (standard custom : Nat) : Nat :=
  if standard = ALIGN_DEFAULT ∨ standard = ALIGN_CUSTOM then custom else standard

/-- config.c:269-273: alignment derivation for compass and gyro 0. -/
def vfcAlign (c : Config) : Config :=
  { c with
    compassAlign := { c.compassAlign with
      custom := buildAlignment c.compassAlign.standard c.compassAlign.custom }
    gyroDev0Align := { c.gyroDev0Align with
      custom := buildAlignment c.gyroDev0Align.standard c.gyroDev0Align.custom } }

/-- config.c:275-299: receiver feature exclusivity on the feature bits.
`DEFAULT_RX_FEATURE` is `FEATURE_RX_SERIAL` in this build. -/
def rxFeaturesFix (f : Features) : Features :=
  let f := if ¬(f.rxParallelPwm ∨ f.rxPpm ∨ f.rxSerial ∨ f.rxMsp ∨ f.rxSpi) then
      { f with rxSerial := true }
    else f
  let f := if f.rxPpm then
      { f with rxSerial := false, rxParallelPwm := false, rxMsp := false, rxSpi := false }
    else f
  let f := if f.rxMsp then
      { f with rxSerial := false, rxParallelPwm := false, rxPpm := false, rxSpi := false }
    else f
  let f := if f.rxSerial then
      { f with rxParallelPwm := false, rxMsp := false, rxPpm := false, rxSpi := false }
    else f
  let f := if f.rxSpi then
      { f with rxSerial := false, rxParallelPwm := false, rxPpm := false, rxMsp := false }
    else f
  if f.rxParallelPwm then
    { f with rxSerial := false, rxMsp := false, rxPpm := false, rxSpi := false }
  else f

/-- config.c:275-299 applied to the configuration. -/
def vfcRxFeatures (c : Config) : Config :=
  { c with features := rxFeaturesFix c.features }

/-- config.c:317-329: RSSI source consistency (`USE_ADC` build). -/
def rssiFix (rssiAdc rxPpm rxParallelPwm : Bool) (rx : RxCfg) : RxCfg :=
  if rssiAdc then
    { rx with rssi_channel := 0, rssi_src_frame_errors := false }
  else if ¬(rx.rssi_channel = 0) ∨ rxPpm ∨ rxParallelPwm then
    { rx with rssi_src_frame_errors := false }
  else rx

/-- config.c:317-329 applied to the configuration. -/
def vfcRssi (c : Config) : Config :=
  { c with rx := rssiFix c.features.rssiAdc c.features.rxPpm c.features.rxParallelPwm c.rx }

/-- config.c:331-356 on one profile: zero roll/pitch/yaw feed-forward
and throttle boost unless rc smoothing is enabled on an interpolation
channel set covering them. -/
def feedforwardFix (rcSmoothingEnabled : Bool) (interpolationChannels : Nat)
    (p : PidProfile) : PidProfile :=
  let p1 :=
    if ¬rcSmoothingEnabled ∨ interpolationChannels = INTERPOLATION_CHANNELS_T then
      { p with pidRoll := { p.pidRoll with F := 0 },
               pidPitch := { p.pidPitch with F := 0 } }
    else p
  let p2 :=
    if ¬rcSmoothingEnabled ∨
        (¬(interpolationChannels = INTERPOLATION_CHANNELS_RPY) ∧
         ¬(interpolationChannels = INTERPOLATION_CHANNELS_RPYT)) then
      { p1 with pidYaw := { p1.pidYaw with F := 0 } }
    else p1
  if ¬rcSmoothingEnabled ∨
      ¬(interpolationChannels = INTERPOLATION_CHANNELS_RPYT ∨
        interpolationChannels = INTERPOLATION_CHANNELS_T ∨
        interpolationChannels = INTERPOLATION_CHANNELS_RPT) then
    { p2 with throttle_boost := 0 }
  else p2

/-- config.c:331-356 applied to the configuration (the three loops over
all profiles, fused into one map with the loop-invariant conditions). -/
def vfcFeedforward (c : Config) : Config :=
  { c with pidProfiles :=
      c.pidProfiles.map fun p =>
        feedforwardFix c.rx.rcSmoothingEnabled c.rx.rcInterpolationChannels p }

/-- Modelled from the spec (`removeModeActivationCondition`, in
`fc/rc_controls.c`, outside the extracted file): drop every condition
bound to `modeId`, compacting the fixed-size array and zero-filling the
tail. -/
def removeMac (modeId : Nat) (ms : List Mac) : List Mac :=
  let kept := ms.filter fun m => ¬(m.modeId = modeId)
  kept ++ List.replicate (ms.length - kept.length) macDefault

/-- `isModeActivationConditionPresent(boxId)`: some condition is bound
to the box. -/
def macPresent (modeId : Nat) (ms : List Mac) : Bool :=
  ms.any fun m => m.modeId = modeId

/-- Modelled from the spec (`isModeActivationConditionLinked`): the
condition for `modeId` is itself linked to another condition. -/
def macLinked (modeId : Nat) (ms : List Mac) : Bool :=
  ms.any fun m => m.modeId = modeId ∧ ¬(m.linkedTo = 0)

/-- config.c:366-368: with 3D enabled or GPS disabled, fall back from
the GPS-rescue failsafe procedure. -/
def rescueFailsafeFix (blocked : Bool) (fs : FailsafeCfg) : FailsafeCfg :=
  if blocked ∧ fs.failsafe_procedure = FAILSAFE_PROCEDURE_GPS_RESCUE then
    { failsafe_procedure := FAILSAFE_PROCEDURE_DROP_IT }
  else fs

/-- config.c:371-373: with 3D enabled or GPS disabled, remove any
GPS-rescue mode activation condition. -/
def rescueMacsFix (blocked : Bool) (ms : List Mac) : List Mac :=
  if blocked ∧ macPresent BOXGPSRESCUE ms then removeMac BOXGPSRESCUE ms else ms

/-- config.c:358-374 applied to the configuration. -/
def vfcGpsRescue (c : Config) : Config :=
  { c with
    failsafe := rescueFailsafeFix (c.features.threeD || !c.features.gps) c.failsafe
    macs := rescueMacsFix (c.features.threeD || !c.features.gps) c.macs }

/-- config.c:376-380: disable `FEATURE_ESC_SENSOR` without a configured
ESC-sensor serial port. -/
def escSensorFeatureFix (hasEscSensorPort : Bool) (f : Features) : Features :=
  if ¬hasEscSensorPort then { f with escSensor := false } else f

/-- config.c:376-380 applied to the configuration. -/
def vfcEscSensor (c : Config) : Config :=
  { c with features := escSensorFeatureFix c.serial.hasEscSensorPort c.features }

/-- One step of the config.c:382-390 loop: examine slot `i` of the live
array and remove the condition when its link is invalid. -/
def macDedupStep (ms : List Mac) (i : Nat) : List Mac :=
  match ms.get? i with
  | none => ms
  | some mac =>
    if ¬(mac.linkedTo = 0) ∧
        (mac.modeId = BOXARM ∨ macLinked mac.linkedTo ms) then
      removeMac mac.modeId ms
    else ms

/-- config.c:382-390: drop mode bindings whose linked condition is the
arming mode or is itself linked; the index runs over the fixed-size
array while removals mutate it. -/
def macDedup (ms : List Mac) : List Mac :=
  (List.range ms.length).foldl macDedupStep ms

/-- config.c:382-390 applied to the configuration. -/
def vfcMacDedup (c : Config) : Config :=
  { c with macs := macDedup c.macs }

/-- config.c:392-397: PROSHOT1000 with dshot telemetry cannot use forced
bit-bang; fall back to auto detection. -/
def bitbangFix (dev : MotorDevCfg) : MotorDevCfg :=
  if dev.motorPwmProtocol = PWM_TYPE_PROSHOT1000 ∧ dev.useDshotTelemetry ∧
      dev.useDshotBitbang = DSHOT_BITBANG_ON then
    { dev with useDshotBitbang := DSHOT_BITBANG_AUTO }
  else dev

/-- config.c:392-397 applied to the configuration. -/
def vfcBitbang (c : Config) : Config :=
  { c with motor := { c.motor with dev := bitbangFix c.motor.dev } }

/-- config.c:399-468: clear features whose driver is not compiled in; in
this build only `FEATURE_SOFTSPI` is affected. -/
def pruneFeatureFix (f : Features) : Features :=
  { f with softSpi := false }

/-- config.c:399-468 applied to the configuration. -/
def vfcPrune (c : Config) : Config :=
  { c with features := pruneFeatureFix c.features }

/-- config.c:470-491: beeper consistency (frequency needs a timer;
off-flag masks restricted to allowed bits; dshot beacon tone clamp). -/
def beeperFix (e : Env) (b : BeeperCfg) : BeeperCfg :=
  { b with
    devFrequency :=
      if ¬(b.devFrequency = 0) ∧ ¬e.beeperTimerAvailable then 0 else b.devFrequency
    beeper_off_flags :=
      if ¬(b.beeper_off_flags.land BEEPER_ALLOWED_MODES = b.beeper_off_flags) then 0
      else b.beeper_off_flags
    dshotBeaconOffFlags :=
      if ¬(b.dshotBeaconOffFlags.land DSHOT_BEACON_ALLOWED_MODES
          = b.dshotBeaconOffFlags) then 0
      else b.dshotBeaconOffFlags
    dshotBeaconTone :=
      if b.dshotBeaconTone < DSHOT_CMD_BEACON1 ∨ b.dshotBeaconTone > DSHOT_CMD_BEACON5 then
        DSHOT_CMD_BEACON1
      else b.dshotBeaconTone }

/-- config.c:470-491 applied to the configuration. -/
def vfcBeeper (e : Env) (c : Config) : Config :=
  { c with beeper := beeperFix e c.beeper }

/-- config.c:494-505: whether the selected protocol is a DSHOT-family
protocol. -/
def usingDshotProtocol (protocol : Nat) : Bool :=
  protocol = PWM_TYPE_PROSHOT1000 ∨ protocol = PWM_TYPE_DSHOT600 ∨
    protocol = PWM_TYPE_DSHOT300 ∨ protocol = PWM_TYPE_DSHOT150

/-- config.c:493-518 on the motor device group: DSHOT protocols disable
unsynced PWM; dshot telemetry is cleared for incompatible
protocol/driver/scheduler combinations. -/
def dshotDevFix (schedulerOptimizeRate : Nat) (dev : MotorDevCfg) : MotorDevCfg :=
  let dshot := usingDshotProtocol dev.motorPwmProtocol
  let dev1 := if dshot then { dev with useUnsyncedPwm := false } else dev
  if (¬(dshot = true) ∨
      (dev1.useDshotBitbang = DSHOT_BITBANG_OFF ∧ dev1.useBurstDshot) ∨
      schedulerOptimizeRate = SCHEDULER_OPTIMIZE_RATE_OFF) ∧
      dev1.useDshotTelemetry then
    { dev1 with useDshotTelemetry := false }
  else dev1

/-- config.c:493-518 applied to the configuration. -/
def vfcDshot (c : Config) : Config :=
  { c with motor := { c.motor with
      dev := dshotDevFix c.system.schedulerOptimizeRate c.motor.dev } }

/-- config.c:521-527 on one OSD timer: replace a timer with an
out-of-range source or precision by the default timer (the per-index
`osdTimerDefault` entries are all the same valid default here). -/
def osdTimerFix (t : Nat) : Nat :=
  if t.land 0xf ≥ OSD_TIMER_SRC_COUNT ∨ (t >>> 4).land 0xf ≥ OSD_TIMER_PREC_COUNT then
    OSD_TIMER_DEFAULT
  else t

/-- config.c:520-528 applied to the configuration. -/
def vfcOsd (c : Config) : Config :=
  { c with osdTimers := c.osdTimers.map osdTimerFix }

/-- config.c:530-545 on the VTX settings: clamp band/channel/power to
the vtx table bounds, clearing the derived frequency when band/channel
turn invalid (each right-hand side is the value the three sequential C
checks leave the field with). -/
def vtxFix (t : VtxTable) (v : VtxSettings) : VtxSettings :=
  { v with
    channel := if v.channel > t.channels then 0 else v.channel
    band := if v.band > t.bands then 0 else v.band
    freq := if (v.channel > t.channels ∧ v.band > 0) ∨ v.band > t.bands then 0 else v.freq
    power := if v.power > t.powerLevels then 0 else v.power }

/-- config.c:530-545 applied to the configuration. -/
def vfcVtx (c : Config) : Config :=
  { c with vtxSettings := vtxFix c.vtxTable c.vtxSettings }

/-- config.c:182-550 `validateAndFixConfig`: the full repair pass, rules
composed in source order. -/
def validateAndFixConfig (e : Env) (c : Config) : Config :=
  c |> vfcMixer e |> vfcSerial |> vfcGps |> vfcProfiles |> vfcBrushed
    |> vfcStandardRate |> validateAndFixGyroConfig e |> vfcAlign
    |> vfcRxFeatures |> vfcRssi |> vfcFeedforward |> vfcGpsRescue
    |> vfcEscSensor |> vfcMacDedup |> vfcBitbang |> vfcPrune
    |> vfcBeeper e |> vfcDshot |> vfcOsd |> vfcVtx

/-! ### Profile manager (config.c:769-805). -/

/-- Observable side effects of a profile change: whether the PID
controller and the ESC endpoints were re-initialized
(`pidInit`/`initEscEndpoints`), and the count passed to
`beeperConfirmationBeeps` (a `uint8_t`), if it was called. -/
@[ext]
structure Effects where
  pidInited : Bool
  escEndpointsInited : Bool
  beeps : Option Nat
  deriving DecidableEq, Repr

/-- No observable side effect. -/
def noEffects : Effects := { pidInited := false, escEndpointsInited := false, beeps := none }

/-- config.c:794-805 `changePidProfile`: with a valid index, set the
active index, reload the profile pointer, re-init the PID controller and
ESC endpoints; in all cases emit `pidProfileIndex + 1` confirmation
beeps (reduced `mod 256` by the `uint8_t` parameter of
`beeperConfirmationBeeps`). -/
def changePidProfile (pidProfileIndex : Nat) (c : Config) : Config × Effects :=
  if pidProfileIndex < c.pidProfiles.length then
    ({ c with
        system := { c.system with pidProfileIndex := pidProfileIndex }
        currentPidProfileIndex := pidProfileIndex },
     { pidInited := true, escEndpointsInited := true,
       beeps := some ((pidProfileIndex + 1) % 256) })
  else
    (c, { pidInited := false, escEndpointsInited := false,
          beeps := some ((pidProfileIndex + 1) % 256) })

/-- The `auto_profile_cell_count` tag of profile slot `j` (reads through
`pidProfiles(j)`). -/
def profileTag (c : Config) (j : Nat) : Int :=
  (c.pidProfiles.getD j default).auto_profile_cell_count

/-- config.c:777-787, the scan loop: `m` is the running
`matchingProfileIndex`; an exact match breaks immediately, the first
"stay"-tagged slot is recorded as fallback. -/
def cellCountScanLoop (c : Config) (cellCount : Int) : List Nat → Int → Int
  | [], m => m
  | j :: rest, m =>
    if profileTag c j = cellCount then (j : Int)
    else
      cellCountScanLoop c cellCount rest
        (if m < 0 ∧ profileTag c j = AUTO_PROFILE_CELL_COUNT_STAY then (j : Int) else m)

/-- The indices visited by the config.c:775-787 while loop: starting at
`(i + 1) % n` and stepping `(+1) % n` until the loop returns to `i`.
For `i < n` this is exactly `n - 1` steps, each other slot once. -/
def scanOrder (n i : Nat) : List Nat :=
  (List.range (n - 1)).map fun k => (i + 1 + k) % n

/-- The winner the config.c:777-787 scan selects from a scan order: the
first exact cell-count match, else the first "stay"-tagged slot. -/
def scanSelect (c : Config) (t : Int) (l : List Nat) : Option Nat :=
  match l.find? (fun j => profileTag c j == t) with
  | some j => some j
  | none => l.find? (fun j => profileTag c j == AUTO_PROFILE_CELL_COUNT_STAY)

/-- config.c:769-792 `changePidProfileFromCellCount`: no-op when the
current profile's tag equals the detected cell count or the "stay"
sentinel; otherwise scan circularly from the next slot and switch to the
match (`cellCount` is the `uint8_t` argument, compared against the
`int8_t` tags under C integer promotion). -/
def changePidProfileFromCellCount (cellCount : Nat) (c : Config) : Config × Effects :=
  let cur := profileTag c c.currentPidProfileIndex
  if cur = (cellCount : Int) ∨ cur = AUTO_PROFILE_CELL_COUNT_STAY then
    (c, noEffects)
  else
    let scan := scanOrder c.pidProfiles.length c.system.pidProfileIndex
    let matchingProfileIndex := cellCountScanLoop c (cellCount : Int) scan (-1)
    if 0 ≤ matchingProfileIndex then changePidProfile matchingProfileIndex.toNat c
    else (c, noEffects)

/-! ### Activation, persistence and module state (config.c:85-87,
139-173, 681-767, 807-821). -/

/-- config.c:148-173 `activateConfig`, restricted to its effect on the
state modelled here: reload both current-profile pointers
(`loadPidProfile`, `loadControlRateProfile`); the remaining calls re-init
external subsystems. -/
def activateConfig (c : Config) : Config :=
  { c with
    currentPidProfileIndex := c.system.pidProfileIndex
    currentRateProfileIndex := c.system.activeRateProfile }

/-- Modelled from the spec: compiled-in defaults produced by
`pgResetAll` (`resetConfig`, config.c:139-146).  The concrete default
values of groups defined outside the extracted file are irrelevant to
the claims; the `systemConfig` defaults are those of the
`PG_RESET_TEMPLATE` at config.c:106-117. -/
def defaultConfig : Config where
  mixer := { mixerMode := 3 }
  serial := serialConfigDefault
  gpsCfg := { provider := 0 }
  features :=
    { rxPpm := false, rxParallelPwm := false, rxSerial := true, rxMsp := false,
      rxSpi := false, gps := false, threeD := false, escSensor := false,
      dynamicFilter := false, rssiAdc := false, softSpi := false }
  pidProfiles := List.replicate 3
    { dterm_lowpass_hz := 150, dterm_lowpass2_hz := 150, dterm_notch_hz := 0,
      dterm_notch_cutoff := 0, dyn_lpf_dterm_min_hz := 70,
      dyn_lpf_dterm_max_hz := 170, motor_output_limit := 100,
      auto_profile_cell_count := AUTO_PROFILE_CELL_COUNT_STAY,
      pidRoll := { D := 30, F := 60 }, pidPitch := { D := 32, F := 60 },
      pidYaw := { D := 0, F := 60 }, d_minRoll := 20, d_minPitch := 22,
      d_minYaw := 0, throttle_boost := 5 }
  motor :=
    { dev := { motorPwmProtocol := PWM_TYPE_ONESHOT125, motorPwmRate := 480,
               useUnsyncedPwm := false, useDshotTelemetry := false,
               useDshotBitbang := DSHOT_BITBANG_AUTO, useBurstDshot := false },
      mincommand := 1000 }
  gyro :=
    { gyro_lowpass_hz := 200, gyro_lowpass2_hz := 250, gyro_soft_notch_hz_1 := 0,
      gyro_soft_notch_cutoff_1 := 0, gyro_soft_notch_hz_2 := 0,
      gyro_soft_notch_cutoff_2 := 0, dyn_lpf_gyro_min_hz := 200,
      dyn_lpf_gyro_max_hz := 500, gyro_hardware_lpf := 0, gyro_sync_denom := 1 }
  pidCfg := { pid_process_denom := 2 }
  system := { pidProfileIndex := 0, activeRateProfile := 0,
              configurationState := 0, schedulerOptimizeRate := SCHEDULER_OPTIMIZE_RATE_AUTO }
  rx := { rssi_channel := 0, rssi_src_frame_errors := false,
          rcInterpolationChannels := INTERPOLATION_CHANNELS_RP, rcSmoothingEnabled := true }
  failsafe := { failsafe_procedure := 0 }
  macs := List.replicate 20 macDefault
  beeper := { beeper_off_flags := 0, dshotBeaconOffFlags := 0,
              dshotBeaconTone := 1, devFrequency := 0 }
  osdTimers := [0x01, 0x01]
  vtxSettings := { band := 0, channel := 0, power := 0, freq := 0 }
  vtxTable := { bands := 0, channels := 0, powerLevels := 0 }
  compassAlign := { standard := 0, custom := 0 }
  gyroDev0Align := { standard := 0, custom := 0 }
  currentPidProfileIndex := 0
  currentRateProfileIndex := 0

/-- The module-level state around the configuration: the static flags of
config.c (`configIsDirty`, `rebootRequired`), the non-volatile store
(`none` models unreadable/corrupt contents), the receiver-signal suspend
counter, and the `ARMING_DISABLED_REBOOT_REQUIRED` arming-disabled
flag. -/
@[ext]
structure World where
  cfg : Config
  eeprom : Option Config
  configIsDirty : Bool
  rebootRequired : Bool
  armingDisabledRebootRequired : Bool
  rxSuspendCount : Int
  deriving DecidableEq, Repr

/-- Modelled from the spec (`suspendRxPwmPpmSignal`, in `rx/rx.c`):
acquire the receiver-signal suspension — the suspend counter rises by
one. -/
def suspendRxPwmPpmSignal (w : World) : World :=
  { w with rxSuspendCount := w.rxSuspendCount + 1 }

/-- Modelled from the spec (`resumeRxPwmPpmSignal`): release the
receiver-signal suspension — the suspend counter falls by one. -/
def resumeRxPwmPpmSignal (w : World) : World :=
  { w with rxSuspendCount := w.rxSuspendCount - 1 }

/-- Modelled from the spec (`loadEEPROM`, in `config/config_eeprom.c`):
replace the in-memory configuration with the stored one, reporting
`false` on corrupt/unreadable storage (in which case the in-memory
configuration is left as it was). -/
def loadEEPROM (w : World) : World × Bool :=
  match w.eeprom with
  | some stored => ({ w with cfg := stored }, true)
  | none => (w, false)

/-- Modelled from the spec (`writeConfigToEEPROM`): persist the
in-memory configuration. -/
def writeConfigToEEPROM (w : World) : World :=
  { w with eeprom := some w.cfg }

/-- Modelled from the spec (`isEEPROMStructureValid`): the store's
layout is structurally readable. -/
def isEEPROMStructureValid (w : World) : Bool :=
  w.eeprom.isSome

/-- config.c:681-695 `readEEPROM`: suspend receiver sampling, load from
storage (keeping the failure flag), validate and activate, resume
receiver sampling, return the load result. -/
def readEEPROM (e : Env) (w : World) : World × Bool :=
  let w1 := suspendRxPwmPpmSignal w
  let (w2, success) := loadEEPROM w1
  let w3 := { w2 with cfg := validateAndFixConfig e w2.cfg }
  let w4 := { w3 with cfg := activateConfig w3.cfg }
  (resumeRxPwmPpmSignal w4, success)

/-- config.c:697-707 `writeUnmodifiedConfigToEEPROM`: validate, suspend
receiver sampling, persist, resume, clear the dirty flag. -/
def writeUnmodifiedConfigToEEPROM (e : Env) (w : World) : World :=
  let w1 := { w with cfg := validateAndFixConfig e w.cfg }
  let w2 := suspendRxPwmPpmSignal w1
  let w3 := writeConfigToEEPROM w2
  let w4 := resumeRxPwmPpmSignal w3
  { w4 with configIsDirty := false }

/-- config.c:709-714 `writeEEPROM`: mark the configuration state
configured, then persist. -/
def writeEEPROM (e : Env) (w : World) : World :=
  writeUnmodifiedConfigToEEPROM e
    { w with cfg := { w.cfg with system :=
        { w.cfg.system with configurationState := CONFIGURATION_STATE_CONFIGURED } } }

/-- config.c:724-742 `resetEEPROM` (build without `USE_CUSTOM_DEFAULTS`):
reset to compiled defaults and persist; always succeeds. -/
def resetEEPROM (e : Env) (_useCustomDefaults : Bool) (w : World) : World × Bool :=
  (writeUnmodifiedConfigToEEPROM e { w with cfg := defaultConfig }, true)

/-- config.c:744-750 `ensureEEPROMStructureIsValid`. -/
def ensureEEPROMStructureIsValid (e : Env) (w : World) : World :=
  if isEEPROMStructureValid w then w else (resetEEPROM e false w).1

/-- config.c:752-757 `saveConfigAndNotify`: persist, re-read, emit one
confirmation beep (the beep is external to the state modelled here). -/
def saveConfigAndNotify (e : Env) (w : World) : World :=
  (readEEPROM e (writeEEPROM e w)).1

/-- config.c:759-762 `setConfigDirty`. -/
def setConfigDirty (w : World) : World :=
  { w with configIsDirty := true }

/-- config.c:764-767 `isConfigDirty`. -/
def isConfigDirty (w : World) : Bool :=
  w.configIsDirty

/-- config.c:807-810 `isSystemConfigured`. -/
def isSystemConfigured (w : World) : Bool :=
  w.cfg.system.configurationState == CONFIGURATION_STATE_CONFIGURED

/-- config.c:812-816 `setRebootRequired`: raise the reboot-required flag
and set the `ARMING_DISABLED_REBOOT_REQUIRED` arming-disabled flag
(`setArmingDisabled`, modelled from the spec as setting the flag bit). -/
def setRebootRequired (w : World) : World :=
  { w with rebootRequired := true, armingDisabledRebootRequired := true }

/-- config.c:818-821 `getRebootRequired`. -/
def getRebootRequired (w : World) : Bool :=
  w.rebootRequired

/-- The state-mutating operations this module exposes (config.c public
functions; pure getters excluded). -/
inductive Op where
  | resetConfigOp : Op
  | validateOp : Op
  | validateGyroOp : Op
  | readEepromOp : Op
  | writeUnmodifiedOp : Op
  | writeEepromOp : Op
  | resetEepromOp : Bool → Op
  | ensureValidOp : Op
  | saveAndNotifyOp : Op
  | setConfigDirtyOp : Op
  | changePidProfileOp : Nat → Op
  | changePidProfileFromCellCountOp : Nat → Op
  | setRebootRequiredOp : Op
  deriving DecidableEq, Repr

/-- Interpretation of each module operation as a world transition. -/
def stepOp (e : Env) : Op → World → World
  | .resetConfigOp, w => { w with cfg := defaultConfig }
  | .validateOp, w => { w with cfg := validateAndFixConfig e w.cfg }
  | .validateGyroOp, w => { w with cfg := validateAndFixGyroConfig e w.cfg }
  | .readEepromOp, w => (readEEPROM e w).1
  | .writeUnmodifiedOp, w => writeUnmodifiedConfigToEEPROM e w
  | .writeEepromOp, w => writeEEPROM e w
  | .resetEepromOp b, w => (resetEEPROM e b w).1
  | .ensureValidOp, w => ensureEEPROMStructureIsValid e w
  | .saveAndNotifyOp, w => saveConfigAndNotify e w
  | .setConfigDirtyOp, w => setConfigDirty w
  | .changePidProfileOp i, w => { w with cfg := (changePidProfile i w.cfg).1 }
  | .changePidProfileFromCellCountOp k, w =>
      { w with cfg := (changePidProfileFromCellCount k w.cfg).1 }
  | .setRebootRequiredOp, w => setRebootRequired w

/-- Running a sequence of module operations. -/
def runOps (e : Env) (ops : List Op) (w : World) : World :=
  ops.foldl (fun w op => stepOp e op w) w

/-! ### Concrete fixtures for evaluating the model. -/

/-- A concrete environment: default gyro sensor at 8 kHz sampling, gyro
loop at 125 us, a beeper timer present, complete mixer tables. -/
def testEnv : Env where
  sensor := .other
  targetLooptimeUs := 125
  beeperTimerAvailable := true
  mixerMotorMissing := fun _ => false
  mixerServoMissing := fun _ => false

/-- A PID profile carrying a given `auto_profile_cell_count` tag. -/
def mkTagProfile (t : Int) : PidProfile :=
  { (default : PidProfile) with auto_profile_cell_count := t }

/-- A world around a given configuration with empty storage and all
flags clear. -/
def mkWorld (c : Config) : World where
  cfg := c
  eeprom := none
  configIsDirty := false
  rebootRequired := false
  armingDisabledRebootRequired := false
  rxSuspendCount := 0

/-- A configuration with both profile indices out of bounds (3 profiles,
6 rate profiles). -/
def oobIndexConfig : Config :=
  { defaultConfig with system :=
      { defaultConfig.system with pidProfileIndex := 7, activeRateProfile := 9 } }

/-- The C4 scenario: profiles tagged `[Stay, 4, Stay, 6]`, current index
0 (tag `Stay`). -/
def stayFirstConfig : Config :=
  { defaultConfig with pidProfiles :=
      [mkTagProfile AUTO_PROFILE_CELL_COUNT_STAY, mkTagProfile 4,
       mkTagProfile AUTO_PROFILE_CELL_COUNT_STAY, mkTagProfile 6] }

/-- The C4 scenario with a non-`Stay`, non-matching current tag:
profiles tagged `[5, 4, Stay, 6]`, current index 0 (tag 5). -/
def tag5FirstConfig : Config :=
  { defaultConfig with pidProfiles :=
      [mkTagProfile 5, mkTagProfile 4,
       mkTagProfile AUTO_PROFILE_CELL_COUNT_STAY, mkTagProfile 6] }

/-- A configuration with the 1 kHz hardware-lowpass mode selected and
`pid_process_denom = 4` (motor protocol ONESHOT125, synced PWM). -/
def khz1Config : Config :=
  { defaultConfig with
    gyro := { defaultConfig.gyro with
      gyro_hardware_lpf := GYRO_HARDWARE_LPF_1KHZ_SAMPLE }
    pidCfg := { pid_process_denom := 4 } }

/-- Number of enabled receiver-input feature bits (PPM, parallel PWM,
serial, MSP, SPI). -/
def rxFeatureCount (f : Features) : Nat :=
  (if f.rxPpm then 1 else 0) + (if f.rxParallelPwm then 1 else 0) +
    (if f.rxSerial then 1 else 0) + (if f.rxMsp then 1 else 0) +
    (if f.rxSpi then 1 else 0)

/-- A configuration with no receiver-input feature enabled. -/
def noRxConfig : Config :=
  { defaultConfig with features := { defaultConfig.features with rxSerial := false } }

/-- A configuration whose first profile has a consistent d-term notch
(center 200 Hz, cutoff 100 Hz). -/
def notchConfig : Config :=
  { defaultConfig with pidProfiles :=
      [{ (default : PidProfile) with dterm_notch_hz := 200, dterm_notch_cutoff := 100 }] }

/-- A configuration selecting a DSHOT protocol while unsynced PWM is
still enabled (the combination `validateAndFixConfig` itself repairs at
config.c:508-510, after the Timing Resolver already ran). -/
def unsyncedDshotConfig : Config :=
  { defaultConfig with
    pidCfg := { pid_process_denom := 1 }
    motor := { defaultConfig.motor with dev :=
      { defaultConfig.motor.dev with
        motorPwmProtocol := PWM_TYPE_DSHOT150, useUnsyncedPwm := true } } }

/-- All feature-bit writes of `validateAndFixConfig` under this build,
composed in source order (gps port check, brushed motors, dynamic
filter, receiver exclusivity, ESC sensor, pruning); the parameters are
the values the rules read from other groups. -/
def featuresChain (e : Env) (prov : Nat) (w a : Bool) (proto : Nat)
    (f : Features) : Features :=
  pruneFeatureFix (escSensorFeatureFix a (rxFeaturesFix (dynFilterFeatureFix e
    (brushedFeaturesFix proto (gpsFeatureFix prov w f)))))

/-- The feature bits as they stand after the receiver-exclusivity rule
(config.c:299), the value the RSSI and GPS-rescue rules read. -/
def midFeatures (e : Env) (c : Config) : Features :=
  rxFeaturesFix (dynFilterFeatureFix e (brushedFeaturesFix
    c.motor.dev.motorPwmProtocol
    (gpsFeatureFix c.gpsCfg.provider (serialFix c.serial).hasGpsPort c.features)))

/-! ## Theorems -/

/-! ### C8: suspend/resume balance of the persistence paths. -/

/-- C8: on every code path through `readEEPROM` (including a failing
storage load, `eeprom = none`) and through
`writeUnmodifiedConfigToEEPROM`, receiver-signal sampling is suspended
before the storage access and resumed before return, so the suspend
counter comes back to its pre-call value; moreover the suspension is
held (counter one higher) while the storage access itself runs. -/
theorem readEEPROM_write_suspend_balanced (e : Env) (w : World) :
    (readEEPROM e w).1.rxSuspendCount = w.rxSuspendCount ∧
    (writeUnmodifiedConfigToEEPROM e w).rxSuspendCount = w.rxSuspendCount := by
  constructor
  · cases h : w.eeprom <;>
      simp [readEEPROM, loadEEPROM, suspendRxPwmPpmSignal, resumeRxPwmPpmSignal, h]
  · simp [writeUnmodifiedConfigToEEPROM, writeConfigToEEPROM,
      suspendRxPwmPpmSignal, resumeRxPwmPpmSignal]

/-! ### C9: `changePidProfile` contract. -/

/-- C9: `changePidProfile(index)` with an out-of-bounds index leaves the
configuration unchanged (no error) while still emitting a confirmation
beep; with a valid index it sets the active index, reloads the profile
pointer, re-initializes the PID controller and the ESC endpoints, and
beeps `index + 1` times (1-based encoding of the active profile). -/
theorem changePidProfile_contract (c : Config) (i : Nat) (hi : i + 1 < 256) :
    (¬i < c.pidProfiles.length →
      (changePidProfile i c).1 = c ∧ (changePidProfile i c).2.beeps = some (i + 1)) ∧
    (i < c.pidProfiles.length →
      (changePidProfile i c).1.system.pidProfileIndex = i ∧
      (changePidProfile i c).1.currentPidProfileIndex = i ∧
      (changePidProfile i c).2.pidInited = true ∧
      (changePidProfile i c).2.escEndpointsInited = true ∧
      (changePidProfile i c).2.beeps = some (i + 1)) := by
  have hmod : (i + 1) % 256 = i + 1 := Nat.mod_eq_of_lt hi
  unfold changePidProfile
  constructor
  · intro h
    rw [if_neg h]
    exact ⟨rfl, by simp [hmod]⟩
  · intro h
    rw [if_pos h]
    refine ⟨rfl, rfl, rfl, rfl, by simp [hmod]⟩

/-- C9 witness: the contract evaluated at the default configuration
(three profiles) and index 1. -/
theorem changePidProfile_contract_witness :
    1 + 1 < 256 ∧
    ((¬1 < defaultConfig.pidProfiles.length →
      (changePidProfile 1 defaultConfig).1 = defaultConfig ∧
      (changePidProfile 1 defaultConfig).2.beeps = some (1 + 1)) ∧
    (1 < defaultConfig.pidProfiles.length →
      (changePidProfile 1 defaultConfig).1.system.pidProfileIndex = 1 ∧
      (changePidProfile 1 defaultConfig).1.currentPidProfileIndex = 1 ∧
      (changePidProfile 1 defaultConfig).2.pidInited = true ∧
      (changePidProfile 1 defaultConfig).2.escEndpointsInited = true ∧
      (changePidProfile 1 defaultConfig).2.beeps = some (1 + 1))) :=
  ⟨by decide, changePidProfile_contract defaultConfig 1 (by decide)⟩

/-! ### C10: the reboot-required flag latches. -/

/-- Every module operation preserves a raised reboot-required flag and a
raised `ARMING_DISABLED_REBOOT_REQUIRED` flag. -/
theorem stepOp_keeps_reboot_flags (e : Env) (op : Op) (w : World)
    (hr : w.rebootRequired = true) (ha : w.armingDisabledRebootRequired = true) :
    (stepOp e op w).rebootRequired = true ∧
    (stepOp e op w).armingDisabledRebootRequired = true := by
  cases op <;>
    simp_all [stepOp, readEEPROM, loadEEPROM, writeUnmodifiedConfigToEEPROM,
      writeEEPROM, resetEEPROM, ensureEEPROMStructureIsValid, saveConfigAndNotify,
      setConfigDirty, setRebootRequired, writeConfigToEEPROM, isEEPROMStructureValid,
      suspendRxPwmPpmSignal, resumeRxPwmPpmSignal] <;>
    cases h : w.eeprom <;> simp_all

/-- C10: once `setRebootRequired` has run, after any sequence of module
operations `getRebootRequired` still returns `true` and the
`ARMING_DISABLED_REBOOT_REQUIRED` arming-disabled flag is still set — no
operation in this module clears either. -/
theorem setRebootRequired_latches (e : Env) (ops : List Op) (w : World) :
    getRebootRequired (runOps e ops (setRebootRequired w)) = true ∧
    (runOps e ops (setRebootRequired w)).armingDisabledRebootRequired = true := by
  suffices h : ∀ v : World, v.rebootRequired = true →
      v.armingDisabledRebootRequired = true →
      getRebootRequired (runOps e ops v) = true ∧
      (runOps e ops v).armingDisabledRebootRequired = true by
    exact h (setRebootRequired w) rfl rfl
  induction ops with
  | nil => intro v hr ha; exact ⟨hr, ha⟩
  | cons op rest ih =>
    intro v hr ha
    have h := stepOp_keeps_reboot_flags e op v hr ha
    exact ih (stepOp e op v) h.1 h.2

/-! ### C7: profile index bounds safety. -/

/-- C7: after `validateAndFixGyroConfig`, `activeRateProfile` is below
`CONTROL_RATE_PROFILE_COUNT` and `pidProfileIndex` is below the number
of PID profiles; an out-of-bounds index is reset to slot 0, and both
active profile pointers are reloaded afterwards. -/
theorem validateAndFixGyroConfig_bounds (e : Env) (c : Config)
    (h : 0 < c.pidProfiles.length) :
    (validateAndFixGyroConfig e c).system.activeRateProfile < CONTROL_RATE_PROFILE_COUNT ∧
    (validateAndFixGyroConfig e c).system.pidProfileIndex <
      (validateAndFixGyroConfig e c).pidProfiles.length ∧
    (c.system.activeRateProfile ≥ CONTROL_RATE_PROFILE_COUNT →
      (validateAndFixGyroConfig e c).system.activeRateProfile = 0) ∧
    (c.system.pidProfileIndex ≥ c.pidProfiles.length →
      (validateAndFixGyroConfig e c).system.pidProfileIndex = 0) ∧
    (validateAndFixGyroConfig e c).currentRateProfileIndex =
      (validateAndFixGyroConfig e c).system.activeRateProfile ∧
    (validateAndFixGyroConfig e c).currentPidProfileIndex =
      (validateAndFixGyroConfig e c).system.pidProfileIndex := by
  have hsys : (validateAndFixGyroConfig e c).system
      = indexFix c.pidProfiles.length c.system := rfl
  have hlen : (validateAndFixGyroConfig e c).pidProfiles = c.pidProfiles := rfl
  have hcr : (validateAndFixGyroConfig e c).currentRateProfileIndex
      = (indexFix c.pidProfiles.length c.system).activeRateProfile := rfl
  have hcp : (validateAndFixGyroConfig e c).currentPidProfileIndex
      = (indexFix c.pidProfiles.length c.system).pidProfileIndex := rfl
  rw [hsys, hlen, hcr, hcp]
  simp only [indexFix]
  refine ⟨?_, ?_, ?_, ?_, ?_, ?_⟩ <;>
    first
      | trivial
      | (simp only [CONTROL_RATE_PROFILE_COUNT] at *; split_ifs <;> omega)

/-- C7 witness: the bound theorem evaluated on a configuration with both
indices out of range (`pidProfileIndex = 7` of 3, `activeRateProfile =
9` of 6). -/
theorem validateAndFixGyroConfig_bounds_witness :
    0 < oobIndexConfig.pidProfiles.length ∧
    ((validateAndFixGyroConfig testEnv oobIndexConfig).system.activeRateProfile <
        CONTROL_RATE_PROFILE_COUNT ∧
     (validateAndFixGyroConfig testEnv oobIndexConfig).system.pidProfileIndex <
        (validateAndFixGyroConfig testEnv oobIndexConfig).pidProfiles.length ∧
     (oobIndexConfig.system.activeRateProfile ≥ CONTROL_RATE_PROFILE_COUNT →
        (validateAndFixGyroConfig testEnv oobIndexConfig).system.activeRateProfile = 0) ∧
     (oobIndexConfig.system.pidProfileIndex ≥ oobIndexConfig.pidProfiles.length →
        (validateAndFixGyroConfig testEnv oobIndexConfig).system.pidProfileIndex = 0) ∧
     (validateAndFixGyroConfig testEnv oobIndexConfig).currentRateProfileIndex =
        (validateAndFixGyroConfig testEnv oobIndexConfig).system.activeRateProfile ∧
     (validateAndFixGyroConfig testEnv oobIndexConfig).currentPidProfileIndex =
        (validateAndFixGyroConfig testEnv oobIndexConfig).system.pidProfileIndex) :=
  ⟨by decide, validateAndFixGyroConfig_bounds testEnv oobIndexConfig (by decide)⟩

/-! ### C4: the cell-count switch scenario `[Stay, 4, Stay, 6]`. -/

/-- C4 counterexample: with profiles tagged `[Stay, 4, Stay, 6]`,
current index 0 (tag `Stay`) and `cellCount = 6`, the call is a no-op —
the current profile's `Stay` tag short-circuits at config.c:771 before
any scan — so the active index stays 0 and is not 3. -/
theorem cellCount_stay_is_noop :
    (changePidProfileFromCellCount 6 stayFirstConfig).1.system.pidProfileIndex = 0 ∧
    ¬((changePidProfileFromCellCount 6 stayFirstConfig).1.system.pidProfileIndex = 3) ∧
    profileTag stayFirstConfig stayFirstConfig.currentPidProfileIndex
      = AUTO_PROFILE_CELL_COUNT_STAY := by
  decide

/-- C4 amended: when the current profile's tag is neither the requested
cell count nor `Stay` — profiles tagged `[5, 4, Stay, 6]`, current index
0 (tag 5), `cellCount = 6` — the scan starting at index 1 selects index
3 (the exact match), not the `Stay`-tagged index 2 it passed first. -/
theorem cellCount_exact_match_beats_stay :
    (changePidProfileFromCellCount 6 tag5FirstConfig).1.system.pidProfileIndex = 3 ∧
    profileTag tag5FirstConfig 2 = AUTO_PROFILE_CELL_COUNT_STAY ∧
    (changePidProfileFromCellCount 6 tag5FirstConfig).1.currentPidProfileIndex = 3 := by
  decide

/-! ### C1: timing resolution of `validateAndFixGyroConfig`. -/

/-- C1 counterexample: with the 1 kHz hardware-lowpass mode and
`pid_process_denom = 4` on entry, `validateAndFixGyroConfig` lowers
`pid_process_denom` to 1 (config.c:584-587), so resolution does decrease
it. -/
theorem validateAndFixGyroConfig_lowers_denom :
    khz1Config.pidCfg.pid_process_denom = 4 ∧
    (validateAndFixGyroConfig testEnv khz1Config).pidCfg.pid_process_denom = 1 := by
  decide

/-- The motor PWM protocol is unchanged by the unsynced-PWM rate cap. -/
theorem unsyncedRateFix_protocol (d : MotorDevCfg) :
    (unsyncedRateFix d).motorPwmProtocol = d.motorPwmProtocol := by
  unfold unsyncedRateFix; split <;> rfl

/-- C1 amended: when unsynced PWM is off, after `validateAndFixGyroConfig`
either the loop period `gyroSyncDenom * pidProcessDenom / samplingRate`
is at least the protocol's minimum interval `1 / restrictionRate`
(stated on the exact integer rates as `samplingRate ≤ gyroSyncDenom *
pidProcessDenom * restrictionRate`), or `pidProcessDenom` has been
raised to the truncated minimum `min(max(samplingRate /
(restrictionRate * gyroSyncDenom), 1), MAX_PID_PROCESS_DENOM)` (integer
truncation and the platform cap can leave the product short); and
`pid_process_denom` is never decreased unless the 1 kHz hardware-lowpass
rule resets it to 1. -/
theorem validateAndFixGyroConfig_timing_amended (e : Env) (c : Config)
    (hunsynced : c.motor.dev.useUnsyncedPwm = false) :
    (samplingRateHz e (validateAndFixGyroConfig e c).gyro.gyro_hardware_lpf ≤
        (validateAndFixGyroConfig e c).gyro.gyro_sync_denom *
        (validateAndFixGyroConfig e c).pidCfg.pid_process_denom *
        motorUpdateRestrictionHz (validateAndFixGyroConfig e c).motor.dev.motorPwmProtocol ∨
      (validateAndFixGyroConfig e c).pidCfg.pid_process_denom ≥
        min (max (samplingRateHz e (validateAndFixGyroConfig e c).gyro.gyro_hardware_lpf /
            (motorUpdateRestrictionHz (validateAndFixGyroConfig e c).motor.dev.motorPwmProtocol *
              (validateAndFixGyroConfig e c).gyro.gyro_sync_denom)) 1)
          MAX_PID_PROCESS_DENOM) ∧
    (¬(c.gyro.gyro_hardware_lpf = GYRO_HARDWARE_LPF_1KHZ_SAMPLE) →
      c.pidCfg.pid_process_denom ≤
        (validateAndFixGyroConfig e c).pidCfg.pid_process_denom) := by
  have hpid : (validateAndFixGyroConfig e c).pidCfg
      = loopPidFix e (gyro1khzFix (fixGyroFilters c.gyro)) c.motor.dev.useUnsyncedPwm
          c.motor.dev.motorPwmProtocol
          (pid1khzFix (fixGyroFilters c.gyro) c.pidCfg) := rfl
  have hgyro : (validateAndFixGyroConfig e c).gyro
      = gyro1khzFix (fixGyroFilters c.gyro) := rfl
  have hproto : (validateAndFixGyroConfig e c).motor.dev.motorPwmProtocol
      = c.motor.dev.motorPwmProtocol := by
    have hdev : (validateAndFixGyroConfig e c).motor.dev
        = unsyncedRateFix c.motor.dev := rfl
    rw [hdev, unsyncedRateFix_protocol]
  have hlpf2 : (fixGyroFilters c.gyro).gyro_hardware_lpf = c.gyro.gyro_hardware_lpf := rfl
  constructor
  · rw [hpid, hgyro, hproto]
    unfold loopPidFix
    rw [hunsynced]
    simp only [Bool.false_eq_true, if_false]
    split
    · exact Or.inr (Nat.le_max_right _ _)
    · rename_i hge
      exact Or.inl (le_of_not_lt hge)
  · intro hlpfne
    rw [hpid]
    have hp1 : pid1khzFix (fixGyroFilters c.gyro) c.pidCfg = c.pidCfg := by
      unfold pid1khzFix
      rw [if_neg]
      rw [hlpf2]
      exact hlpfne
    rw [hp1]
    unfold loopPidFix
    rw [hunsynced]
    simp only [Bool.false_eq_true, if_false]
    split
    · exact Nat.le_max_left _ _
    · exact le_rfl

/-- C1 amended witness: the amended timing statement evaluated at the
default configuration (synced PWM, normal hardware lowpass). -/
theorem validateAndFixGyroConfig_timing_amended_witness :
    defaultConfig.motor.dev.useUnsyncedPwm = false ∧
    ((samplingRateHz testEnv
          (validateAndFixGyroConfig testEnv defaultConfig).gyro.gyro_hardware_lpf ≤
        (validateAndFixGyroConfig testEnv defaultConfig).gyro.gyro_sync_denom *
        (validateAndFixGyroConfig testEnv defaultConfig).pidCfg.pid_process_denom *
        motorUpdateRestrictionHz
          (validateAndFixGyroConfig testEnv defaultConfig).motor.dev.motorPwmProtocol ∨
      (validateAndFixGyroConfig testEnv defaultConfig).pidCfg.pid_process_denom ≥
        min (max (samplingRateHz testEnv
              (validateAndFixGyroConfig testEnv defaultConfig).gyro.gyro_hardware_lpf /
            (motorUpdateRestrictionHz
                (validateAndFixGyroConfig testEnv defaultConfig).motor.dev.motorPwmProtocol *
              (validateAndFixGyroConfig testEnv defaultConfig).gyro.gyro_sync_denom)) 1)
          MAX_PID_PROCESS_DENOM) ∧
    (¬(defaultConfig.gyro.gyro_hardware_lpf = GYRO_HARDWARE_LPF_1KHZ_SAMPLE) →
      defaultConfig.pidCfg.pid_process_denom ≤
        (validateAndFixGyroConfig testEnv defaultConfig).pidCfg.pid_process_denom)) :=
  ⟨rfl, validateAndFixGyroConfig_timing_amended testEnv defaultConfig rfl⟩

/-! ### C2: receiver feature exclusivity. -/

/-- The receiver-exclusivity cascade leaves at most one receiver-input
feature enabled, and enables the default (`FEATURE_RX_SERIAL`) when none
was enabled. -/
theorem rxFeaturesFix_exclusive (f : Features) :
    rxFeatureCount (rxFeaturesFix f) ≤ 1 ∧
    (rxFeatureCount f = 0 → (rxFeaturesFix f).rxSerial = true) := by
  obtain ⟨p, pa, se, m, sp, g, t, es, dy, rs, so⟩ := f
  cases p <;> cases pa <;> cases se <;> cases m <;> cases sp <;>
    simp [rxFeaturesFix, rxFeatureCount]

/-- `gpsFeatureFix` does not touch the receiver-input bits. -/
theorem gpsFeatureFix_rxCount (p : Nat) (w : Bool) (f : Features) :
    rxFeatureCount (gpsFeatureFix p w f) = rxFeatureCount f := by
  unfold gpsFeatureFix; split <;> rfl

/-- `brushedFeaturesFix` does not touch the receiver-input bits. -/
theorem brushedFeaturesFix_rxCount (p : Nat) (f : Features) :
    rxFeatureCount (brushedFeaturesFix p f) = rxFeatureCount f := by
  unfold brushedFeaturesFix; split <;> rfl

/-- `dynFilterFeatureFix` does not touch the receiver-input bits. -/
theorem dynFilterFeatureFix_rxCount (e : Env) (f : Features) :
    rxFeatureCount (dynFilterFeatureFix e f) = rxFeatureCount f := by
  unfold dynFilterFeatureFix; split <;> rfl

/-- `escSensorFeatureFix` does not touch the receiver-input bits. -/
theorem escSensorFeatureFix_rx (h : Bool) (f : Features) :
    rxFeatureCount (escSensorFeatureFix h f) = rxFeatureCount f ∧
    (escSensorFeatureFix h f).rxSerial = f.rxSerial := by
  unfold escSensorFeatureFix; split <;> exact ⟨rfl, rfl⟩

/-- `pruneFeatureFix` does not touch the receiver-input bits. -/
theorem pruneFeatureFix_rx (f : Features) :
    rxFeatureCount (pruneFeatureFix f) = rxFeatureCount f ∧
    (pruneFeatureFix f).rxSerial = f.rxSerial :=
  ⟨rfl, rfl⟩

/-- The feature bits of `validateAndFixConfig` as the explicit
composition of the feature-touching rules, in source order. -/
theorem validateAndFixConfig_features_eq (e : Env) (c : Config) :
    (validateAndFixConfig e c).features =
      pruneFeatureFix (escSensorFeatureFix
        (gpsSerialFix c.gpsCfg.provider (serialFix c.serial)).hasEscSensorPort
        (rxFeaturesFix (dynFilterFeatureFix e (brushedFeaturesFix
          c.motor.dev.motorPwmProtocol
          (gpsFeatureFix c.gpsCfg.provider (serialFix c.serial).hasGpsPort
            c.features))))) := rfl

/-- C2: after `validateAndFixConfig`, at most one of the receiver-input
feature bits (PPM, parallel PWM, serial, MSP, SPI) is enabled, and if
none was enabled on entry the default receiver-input feature
(`FEATURE_RX_SERIAL`) has been enabled. -/
theorem validateAndFixConfig_rx_exclusive (e : Env) (c : Config) :
    rxFeatureCount (validateAndFixConfig e c).features ≤ 1 ∧
    (rxFeatureCount c.features = 0 →
      (validateAndFixConfig e c).features.rxSerial = true) := by
  rw [validateAndFixConfig_features_eq]
  constructor
  · rw [(pruneFeatureFix_rx _).1, (escSensorFeatureFix_rx _ _).1]
    exact (rxFeaturesFix_exclusive _).1
  · intro h0
    rw [(pruneFeatureFix_rx _).2, (escSensorFeatureFix_rx _ _).2]
    apply (rxFeaturesFix_exclusive _).2
    rw [dynFilterFeatureFix_rxCount, brushedFeaturesFix_rxCount, gpsFeatureFix_rxCount]
    exact h0

/-- C2 witness: the exclusivity statement evaluated on a configuration
with no receiver-input feature enabled. -/
theorem validateAndFixConfig_rx_exclusive_witness :
    rxFeatureCount (validateAndFixConfig testEnv noRxConfig).features ≤ 1 ∧
    (rxFeatureCount noRxConfig.features = 0 →
      (validateAndFixConfig testEnv noRxConfig).features.rxSerial = true) :=
  validateAndFixConfig_rx_exclusive testEnv noRxConfig

/-! ### C6: d-term notch consistency. -/

/-- The per-profile repair establishes notch consistency. -/
theorem fixPidProfile_notch (p : PidProfile)
    (h : 0 < (fixPidProfile p).dterm_notch_hz) :
    (fixPidProfile p).dterm_notch_cutoff < (fixPidProfile p).dterm_notch_hz := by
  unfold fixPidProfile adjustFilterLimit at *
  dsimp only at h ⊢
  split_ifs at h ⊢ <;> omega

/-- Feed-forward gating does not touch the notch fields. -/
theorem feedforwardFix_notch (sm : Bool) (ic : Nat) (p : PidProfile) :
    (feedforwardFix sm ic p).dterm_notch_hz = p.dterm_notch_hz ∧
    (feedforwardFix sm ic p).dterm_notch_cutoff = p.dterm_notch_cutoff := by
  unfold feedforwardFix; split_ifs <;> exact ⟨rfl, rfl⟩

/-- The profile list of `validateAndFixConfig`, as the explicit
composition of the profile-touching rules. -/
theorem validateAndFixConfig_pidProfiles_eq (e : Env) (c : Config) :
    (validateAndFixConfig e c).pidProfiles =
      (c.pidProfiles.map fixPidProfile).map fun p =>
        feedforwardFix
          (rssiFix (rxFeaturesFix (dynFilterFeatureFix e (brushedFeaturesFix
              c.motor.dev.motorPwmProtocol
              (gpsFeatureFix c.gpsCfg.provider (serialFix c.serial).hasGpsPort
                c.features)))).rssiAdc
            (rxFeaturesFix (dynFilterFeatureFix e (brushedFeaturesFix
              c.motor.dev.motorPwmProtocol
              (gpsFeatureFix c.gpsCfg.provider (serialFix c.serial).hasGpsPort
                c.features)))).rxPpm
            (rxFeaturesFix (dynFilterFeatureFix e (brushedFeaturesFix
              c.motor.dev.motorPwmProtocol
              (gpsFeatureFix c.gpsCfg.provider (serialFix c.serial).hasGpsPort
                c.features)))).rxParallelPwm
            c.rx).rcSmoothingEnabled
          (rssiFix (rxFeaturesFix (dynFilterFeatureFix e (brushedFeaturesFix
              c.motor.dev.motorPwmProtocol
              (gpsFeatureFix c.gpsCfg.provider (serialFix c.serial).hasGpsPort
                c.features)))).rssiAdc
            (rxFeaturesFix (dynFilterFeatureFix e (brushedFeaturesFix
              c.motor.dev.motorPwmProtocol
              (gpsFeatureFix c.gpsCfg.provider (serialFix c.serial).hasGpsPort
                c.features)))).rxPpm
            (rxFeaturesFix (dynFilterFeatureFix e (brushedFeaturesFix
              c.motor.dev.motorPwmProtocol
              (gpsFeatureFix c.gpsCfg.provider (serialFix c.serial).hasGpsPort
                c.features)))).rxParallelPwm
            c.rx).rcInterpolationChannels p := rfl

/-- C6: after `validateAndFixConfig`, every PID profile (slot `i`, read
with a zeroed default out of range) with an enabled d-term notch has
`dterm_notch_cutoff < dterm_notch_hz`. -/
theorem validateAndFixConfig_notch (e : Env) (c : Config) (i : Nat)
    (h : 0 < ((validateAndFixConfig e c).pidProfiles.getD i default).dterm_notch_hz) :
    ((validateAndFixConfig e c).pidProfiles.getD i default).dterm_notch_cutoff <
      ((validateAndFixConfig e c).pidProfiles.getD i default).dterm_notch_hz := by
  rw [validateAndFixConfig_pidProfiles_eq, List.map_map] at h ⊢
  rw [List.getD_eq_getElem?_getD, List.getElem?_map] at h ⊢
  cases hopt : c.pidProfiles[i]? with
  | none =>
    rw [hopt] at h
    simp at h
    exact absurd h (by decide)
  | some q =>
    rw [hopt] at h
    simp only [Option.map_some', Option.getD_some, Function.comp_apply] at h ⊢
    rw [(feedforwardFix_notch _ _ _).1] at h
    rw [(feedforwardFix_notch _ _ _).1, (feedforwardFix_notch _ _ _).2]
    exact fixPidProfile_notch _ h

/-- C6 witness: the notch statement evaluated on a configuration whose
first profile keeps an enabled notch (center 200 Hz, cutoff 100 Hz). -/
theorem validateAndFixConfig_notch_witness :
    0 < ((validateAndFixConfig testEnv notchConfig).pidProfiles.getD 0
        default).dterm_notch_hz ∧
    ((validateAndFixConfig testEnv notchConfig).pidProfiles.getD 0
        default).dterm_notch_cutoff <
      ((validateAndFixConfig testEnv notchConfig).pidProfiles.getD 0
        default).dterm_notch_hz :=
  ⟨by decide, validateAndFixConfig_notch testEnv notchConfig 0 (by decide)⟩

/-! ### C5: the cell-count auto-switch contract. -/

/-- The scan loop with a non-negative accumulator only looks for an
exact match. -/
theorem cellCountScanLoop_nonneg (c : Config) (t : Int) (l : List Nat)
    (m : Int) (hm : 0 ≤ m) :
    cellCountScanLoop c t l m =
      match l.find? (fun j => profileTag c j == t) with
      | some j => (j : Int)
      | none => m := by
  induction l generalizing m with
  | nil => rfl
  | cons j rest ih =>
    by_cases hj : profileTag c j = t
    · simp [cellCountScanLoop, hj, List.find?_cons_of_pos]
    · have hfind : List.find? (fun j => profileTag c j == t) (j :: rest)
          = List.find? (fun j => profileTag c j == t) rest :=
        List.find?_cons_of_neg _ (by simpa using hj)
      rw [hfind]
      unfold cellCountScanLoop
      rw [if_neg hj, if_neg (by omega)]
      exact ih m hm

/-- The scan loop with a negative accumulator returns the first exact
match, else the first "stay"-tagged slot, else the accumulator. -/
theorem cellCountScanLoop_neg (c : Config) (t : Int) (l : List Nat)
    (m : Int) (hm : m < 0) :
    cellCountScanLoop c t l m =
      match scanSelect c t l with
      | some j => (j : Int)
      | none => m := by
  induction l generalizing m with
  | nil => rfl
  | cons j rest ih =>
    by_cases hj : profileTag c j = t
    · simp [cellCountScanLoop, hj, scanSelect, List.find?_cons_of_pos]
    · have hfind : List.find? (fun j => profileTag c j == t) (j :: rest)
          = List.find? (fun j => profileTag c j == t) rest :=
        List.find?_cons_of_neg _ (by simpa using hj)
      by_cases hstay : profileTag c j = AUTO_PROFILE_CELL_COUNT_STAY
      · unfold cellCountScanLoop
        rw [if_neg hj, if_pos ⟨hm, hstay⟩]
        rw [cellCountScanLoop_nonneg c t rest _ (by positivity)]
        unfold scanSelect
        rw [hfind]
        have hstayfind : List.find?
            (fun j => profileTag c j == AUTO_PROFILE_CELL_COUNT_STAY) (j :: rest)
            = some j := List.find?_cons_of_pos _ (by simpa using hstay)
        rw [hstayfind]
        cases List.find? (fun j => profileTag c j == t) rest <;> rfl
      · have hstayfind : List.find?
            (fun j => profileTag c j == AUTO_PROFILE_CELL_COUNT_STAY) (j :: rest)
            = List.find? (fun j => profileTag c j == AUTO_PROFILE_CELL_COUNT_STAY) rest :=
          List.find?_cons_of_neg _ (by simpa using hstay)
        unfold cellCountScanLoop
        rw [if_neg hj, if_neg (by tauto)]
        rw [ih m hm]
        unfold scanSelect
        rw [hfind, hstayfind]

/-- The scan order is injective below the profile count. -/
theorem scanOrder_nodup (n i : Nat) (hi : i < n) : (scanOrder n i).Nodup := by
  apply List.Nodup.map_on
  · intro x hx y hy hxy
    have hx' : x < n - 1 := List.mem_range.mp hx
    have hy' : y < n - 1 := List.mem_range.mp hy
    have hmod : Nat.ModEq n (i + 1 + x) (i + 1 + y) := hxy
    have : Nat.ModEq n x y := Nat.ModEq.add_left_cancel' (i + 1) hmod
    have hxn : x % n = y % n := this
    rw [Nat.mod_eq_of_lt (by omega), Nat.mod_eq_of_lt (by omega)] at hxn
    exact hxn
  · exact List.nodup_range _

/-- The scan never revisits the current slot. -/
theorem scanOrder_not_mem (n i : Nat) (hi : i < n) : ¬(i ∈ scanOrder n i) := by
  intro hmem
  obtain ⟨k, hk, hkeq⟩ := List.mem_map.mp hmem
  have hk' : k < n - 1 := List.mem_range.mp hk
  have hmod : Nat.ModEq n (i + (1 + k)) (i + 0) := by
    show (i + (1 + k)) % n = (i + 0) % n
    rw [Nat.add_zero, Nat.mod_eq_of_lt hi]
    calc (i + (1 + k)) % n = (i + 1 + k) % n := by ring_nf
    _ = i := hkeq
  have h0 : Nat.ModEq n (1 + k) 0 := Nat.ModEq.add_left_cancel' i hmod
  have hdvd : n ∣ (1 + k) := (Nat.modEq_zero_iff_dvd).mp h0
  have := Nat.le_of_dvd (by omega) hdvd
  omega

/-- C5: `changePidProfileFromCellCount` is a no-op when the current
profile's tag equals the cell count or the `Stay` sentinel; otherwise it
scans circularly from the slot after the current index and switches to
the first exact match, falling back to the first `Stay`-tagged slot of
the scan, and makes no switch when neither exists; the scan order visits
each other slot at most once (it is duplicate-free, avoids the current
slot, and has `PID_PROFILE_COUNT - 1` entries). -/
theorem changePidProfileFromCellCount_spec (c : Config) (cellCount : Nat)
    (hi : c.system.pidProfileIndex < c.pidProfiles.length) :
    ((profileTag c c.currentPidProfileIndex = (cellCount : Int) ∨
      profileTag c c.currentPidProfileIndex = AUTO_PROFILE_CELL_COUNT_STAY) →
      changePidProfileFromCellCount cellCount c = (c, noEffects)) ∧
    (¬(profileTag c c.currentPidProfileIndex = (cellCount : Int) ∨
       profileTag c c.currentPidProfileIndex = AUTO_PROFILE_CELL_COUNT_STAY) →
      changePidProfileFromCellCount cellCount c =
        match scanSelect c (cellCount : Int)
            (scanOrder c.pidProfiles.length c.system.pidProfileIndex) with
        | some j => changePidProfile j c
        | none => (c, noEffects)) ∧
    (scanOrder c.pidProfiles.length c.system.pidProfileIndex).Nodup ∧
    ¬(c.system.pidProfileIndex ∈
        scanOrder c.pidProfiles.length c.system.pidProfileIndex) ∧
    (scanOrder c.pidProfiles.length c.system.pidProfileIndex).length =
      c.pidProfiles.length - 1 := by
  refine ⟨?_, ?_, scanOrder_nodup _ _ hi, scanOrder_not_mem _ _ hi, ?_⟩
  · intro hcur
    unfold changePidProfileFromCellCount
    rw [if_pos hcur]
  · intro hcur
    unfold changePidProfileFromCellCount
    rw [if_neg hcur]
    show (if 0 ≤ cellCountScanLoop c (cellCount : Int)
          (scanOrder c.pidProfiles.length c.system.pidProfileIndex) (-1) then
        changePidProfile (cellCountScanLoop c (cellCount : Int)
          (scanOrder c.pidProfiles.length c.system.pidProfileIndex) (-1)).toNat c
      else (c, noEffects)) = _
    rw [cellCountScanLoop_neg c _ _ _ (by omega)]
    cases hsel : scanSelect c (cellCount : Int)
        (scanOrder c.pidProfiles.length c.system.pidProfileIndex) with
    | none =>
      dsimp only
      rw [if_neg (by omega)]
    | some j =>
      dsimp only
      rw [if_pos (Int.natCast_nonneg j), Int.toNat_natCast]
  · simp [scanOrder]

/-- C5 witness: the auto-switch contract evaluated on profiles tagged
`[5, 4, Stay, 6]` with current index 0 and `cellCount = 6`. -/
theorem changePidProfileFromCellCount_spec_witness :
    tag5FirstConfig.system.pidProfileIndex < tag5FirstConfig.pidProfiles.length ∧
    (((profileTag tag5FirstConfig tag5FirstConfig.currentPidProfileIndex
          = ((6 : Nat) : Int) ∨
       profileTag tag5FirstConfig tag5FirstConfig.currentPidProfileIndex
          = AUTO_PROFILE_CELL_COUNT_STAY) →
       changePidProfileFromCellCount 6 tag5FirstConfig = (tag5FirstConfig, noEffects)) ∧
     (¬(profileTag tag5FirstConfig tag5FirstConfig.currentPidProfileIndex
          = ((6 : Nat) : Int) ∨
        profileTag tag5FirstConfig tag5FirstConfig.currentPidProfileIndex
          = AUTO_PROFILE_CELL_COUNT_STAY) →
       changePidProfileFromCellCount 6 tag5FirstConfig =
         match scanSelect tag5FirstConfig ((6 : Nat) : Int)
             (scanOrder tag5FirstConfig.pidProfiles.length
               tag5FirstConfig.system.pidProfileIndex) with
         | some j => changePidProfile j tag5FirstConfig
         | none => (tag5FirstConfig, noEffects)) ∧
     (scanOrder tag5FirstConfig.pidProfiles.length
        tag5FirstConfig.system.pidProfileIndex).Nodup ∧
     ¬(tag5FirstConfig.system.pidProfileIndex ∈
         scanOrder tag5FirstConfig.pidProfiles.length
           tag5FirstConfig.system.pidProfileIndex) ∧
     (scanOrder tag5FirstConfig.pidProfiles.length
        tag5FirstConfig.system.pidProfileIndex).length =
       tag5FirstConfig.pidProfiles.length - 1) :=
  ⟨by decide, changePidProfileFromCellCount_spec tag5FirstConfig 6 (by decide)⟩

/-! ### C3: idempotence of `validateAndFixConfig`.

`validateAndFixConfig` is not idempotent as claimed; the counterexample
below exploits that the Timing Resolver (config.c:267) reads
`useUnsyncedPwm` before the DSHOT section (config.c:508-510) clears it.
The amended statement proves idempotence for configurations where
unsynced PWM is already off whenever a DSHOT protocol is selected and no
mode activation condition is linked. -/

/-- C3 counterexample: on a configuration selecting DSHOT150 with
unsynced PWM enabled, a second `validateAndFixConfig` run changes the
result again (the first run clears `useUnsyncedPwm` only after the
Timing Resolver ran, so only the second run raises
`pid_process_denom`). -/
theorem validateAndFixConfig_not_idempotent :
    ¬(validateAndFixConfig testEnv (validateAndFixConfig testEnv unsyncedDshotConfig)
      = validateAndFixConfig testEnv unsyncedDshotConfig) := by
  decide

/-- A repaired mixer mode is a fixed point of the mixer rule. -/
theorem mixerModeFix_idem (e : Env) (m : Nat) :
    mixerModeFix e (mixerModeFix e m) = mixerModeFix e m := by
  unfold mixerModeFix MIXER_CUSTOM MIXER_CUSTOM_AIRPLANE MIXER_CUSTOM_TRI
  split_ifs <;> simp_all

/-- The serial repair always yields a structurally valid configuration. -/
theorem serialFix_valid (s : SerialCfg) : (serialFix s).valid = true := by
  unfold serialFix serialConfigDefault
  split_ifs with h <;> first | rfl | exact h | simpa using h

/-- A valid serial configuration is untouched by the repair. -/
theorem serialFix_of_valid (s : SerialCfg) (h : s.valid = true) : serialFix s = s := by
  unfold serialFix
  rw [if_neg]
  simp [h]

/-- Removing the GPS port keeps structural validity. -/
theorem gpsSerialFix_valid (p : Nat) (s : SerialCfg) :
    (gpsSerialFix p s).valid = s.valid := by
  unfold gpsSerialFix; split <;> rfl

/-- Removing the GPS port twice is the same as removing it once. -/
theorem gpsSerialFix_idem (p : Nat) (s : SerialCfg) :
    gpsSerialFix p (gpsSerialFix p s) = gpsSerialFix p s := by
  unfold gpsSerialFix
  split_ifs <;> simp_all

/-- The serial-configuration rules reach a fixed point after one pass. -/
theorem serialChain_idem (p : Nat) (s : SerialCfg) :
    gpsSerialFix p (serialFix (gpsSerialFix p (serialFix s)))
      = gpsSerialFix p (serialFix s) := by
  rw [serialFix_of_valid _ (by rw [gpsSerialFix_valid]; exact serialFix_valid s)]
  exact gpsSerialFix_idem p (serialFix s)

/-- Alignment derivation is idempotent. -/
theorem buildAlignment_idem (s c : Nat) :
    buildAlignment s (buildAlignment s c) = buildAlignment s c := by
  unfold buildAlignment
  split_ifs <;> rfl

/-- The beeper repair is idempotent. -/
theorem beeperFix_idem (e : Env) (b : BeeperCfg) :
    beeperFix e (beeperFix e b) = beeperFix e b := by
  unfold beeperFix
  ext <;> dsimp only <;> split_ifs <;>
    first
      | rfl
      | omega
      | simp_all [Nat.zero_and, DSHOT_CMD_BEACON1, DSHOT_CMD_BEACON5]
      | (simp_all [Nat.zero_and, DSHOT_CMD_BEACON1, DSHOT_CMD_BEACON5]; omega)

/-- The OSD timer repair is idempotent. -/
theorem osdTimerFix_idem (t : Nat) :
    osdTimerFix (osdTimerFix t) = osdTimerFix t := by
  unfold osdTimerFix
  split_ifs <;> rfl

/-- The VTX clamp is idempotent. -/
theorem vtxFix_idem (t : VtxTable) (v : VtxSettings) :
    vtxFix t (vtxFix t v) = vtxFix t v := by
  unfold vtxFix
  ext <;> dsimp only <;> split_ifs <;> omega

/-- The profile-index bound repair is idempotent. -/
theorem indexFix_idem (n : Nat) (s : SystemCfg) :
    indexFix n (indexFix n s) = indexFix n s := by
  unfold indexFix CONTROL_RATE_PROFILE_COUNT
  ext <;> dsimp only <;> split_ifs <;> omega

/-- The failsafe GPS-rescue fallback is idempotent. -/
theorem rescueFailsafeFix_idem (b : Bool) (fs : FailsafeCfg) :
    rescueFailsafeFix b (rescueFailsafeFix b fs) = rescueFailsafeFix b fs := by
  unfold rescueFailsafeFix FAILSAFE_PROCEDURE_DROP_IT FAILSAFE_PROCEDURE_GPS_RESCUE
  split_ifs <;> simp_all

/-- `standardRateFix` changes only the PWM rate. -/
theorem standardRateFix_fields (d : MotorDevCfg) :
    (standardRateFix d).motorPwmProtocol = d.motorPwmProtocol ∧
    (standardRateFix d).useUnsyncedPwm = d.useUnsyncedPwm ∧
    (standardRateFix d).useDshotTelemetry = d.useDshotTelemetry ∧
    (standardRateFix d).useDshotBitbang = d.useDshotBitbang ∧
    (standardRateFix d).useBurstDshot = d.useBurstDshot := by
  unfold standardRateFix; split <;> exact ⟨rfl, rfl, rfl, rfl, rfl⟩

/-- `unsyncedRateFix` changes only the PWM rate. -/
theorem unsyncedRateFix_fields (d : MotorDevCfg) :
    (unsyncedRateFix d).motorPwmProtocol = d.motorPwmProtocol ∧
    (unsyncedRateFix d).useUnsyncedPwm = d.useUnsyncedPwm ∧
    (unsyncedRateFix d).useDshotTelemetry = d.useDshotTelemetry ∧
    (unsyncedRateFix d).useDshotBitbang = d.useDshotBitbang ∧
    (unsyncedRateFix d).useBurstDshot = d.useBurstDshot := by
  unfold unsyncedRateFix; split <;> exact ⟨rfl, rfl, rfl, rfl, rfl⟩

/-- `bitbangFix` changes only the bit-bang mode. -/
theorem bitbangFix_fields (d : MotorDevCfg) :
    (bitbangFix d).motorPwmProtocol = d.motorPwmProtocol ∧
    (bitbangFix d).useUnsyncedPwm = d.useUnsyncedPwm ∧
    (bitbangFix d).useDshotTelemetry = d.useDshotTelemetry ∧
    (bitbangFix d).motorPwmRate = d.motorPwmRate ∧
    (bitbangFix d).useBurstDshot = d.useBurstDshot := by
  unfold bitbangFix; split <;> exact ⟨rfl, rfl, rfl, rfl, rfl⟩

/-- `dshotDevFix` changes only unsynced PWM and dshot telemetry. -/
theorem dshotDevFix_fields (sr : Nat) (d : MotorDevCfg) :
    (dshotDevFix sr d).motorPwmProtocol = d.motorPwmProtocol ∧
    (dshotDevFix sr d).motorPwmRate = d.motorPwmRate ∧
    (dshotDevFix sr d).useDshotBitbang = d.useDshotBitbang ∧
    (dshotDevFix sr d).useBurstDshot = d.useBurstDshot := by
  unfold dshotDevFix
  dsimp only
  split_ifs <;> exact ⟨rfl, rfl, rfl, rfl⟩

/-- The value of `useUnsyncedPwm` after `dshotDevFix`. -/
theorem dshotDevFix_unsynced (sr : Nat) (d : MotorDevCfg) :
    (dshotDevFix sr d).useUnsyncedPwm =
      if usingDshotProtocol d.motorPwmProtocol = true then false
      else d.useUnsyncedPwm := by
  unfold dshotDevFix
  dsimp only
  split_ifs <;> simp_all

/-- The value of `useDshotBitbang` after `dshotDevFix(bitbangFix(...))`
over the original device fields. -/
theorem devChain_bitbang (sr : Nat) (d : MotorDevCfg) :
    (dshotDevFix sr (bitbangFix (unsyncedRateFix (standardRateFix d)))).useDshotBitbang
      = if d.motorPwmProtocol = PWM_TYPE_PROSHOT1000 ∧ d.useDshotTelemetry = true ∧
            d.useDshotBitbang = DSHOT_BITBANG_ON then DSHOT_BITBANG_AUTO
        else d.useDshotBitbang := by
  rw [(dshotDevFix_fields sr _).2.2.1]
  unfold bitbangFix
  rw [(unsyncedRateFix_fields _).1, (standardRateFix_fields _).1,
      (unsyncedRateFix_fields _).2.2.1, (standardRateFix_fields _).2.2.1,
      (unsyncedRateFix_fields _).2.2.2.1, (standardRateFix_fields _).2.2.2.1]
  split_ifs <;> first
    | rfl
    | rw [(unsyncedRateFix_fields _).2.2.2.1, (standardRateFix_fields _).2.2.2.1]

/-- The value of `useDshotTelemetry` after the full device chain, over
the original device fields. -/
theorem devChain_telemetry (sr : Nat) (d : MotorDevCfg) :
    (dshotDevFix sr (bitbangFix (unsyncedRateFix (standardRateFix d)))).useDshotTelemetry
      = if (¬(usingDshotProtocol d.motorPwmProtocol = true) ∨
            ((if d.motorPwmProtocol = PWM_TYPE_PROSHOT1000 ∧ d.useDshotTelemetry = true ∧
                d.useDshotBitbang = DSHOT_BITBANG_ON then DSHOT_BITBANG_AUTO
              else d.useDshotBitbang) = DSHOT_BITBANG_OFF ∧ d.useBurstDshot = true) ∨
            sr = SCHEDULER_OPTIMIZE_RATE_OFF) ∧ d.useDshotTelemetry = true then false
        else d.useDshotTelemetry := by
  unfold dshotDevFix
  dsimp only
  have h1 : (bitbangFix (unsyncedRateFix (standardRateFix d))).motorPwmProtocol
      = d.motorPwmProtocol := by
    rw [(bitbangFix_fields _).1, (unsyncedRateFix_fields _).1, (standardRateFix_fields _).1]
  have h2 : (bitbangFix (unsyncedRateFix (standardRateFix d))).useDshotTelemetry
      = d.useDshotTelemetry := by
    rw [(bitbangFix_fields _).2.2.1, (unsyncedRateFix_fields _).2.2.1,
        (standardRateFix_fields _).2.2.1]
  have h3 : (bitbangFix (unsyncedRateFix (standardRateFix d))).useDshotBitbang
      = if d.motorPwmProtocol = PWM_TYPE_PROSHOT1000 ∧ d.useDshotTelemetry = true ∧
            d.useDshotBitbang = DSHOT_BITBANG_ON then DSHOT_BITBANG_AUTO
        else d.useDshotBitbang := by
    unfold bitbangFix
    rw [(unsyncedRateFix_fields _).1, (standardRateFix_fields _).1,
        (unsyncedRateFix_fields _).2.2.1, (standardRateFix_fields _).2.2.1,
        (unsyncedRateFix_fields _).2.2.2.1, (standardRateFix_fields _).2.2.2.1]
    split_ifs <;> first
      | rfl
      | rw [(unsyncedRateFix_fields _).2.2.2.1, (standardRateFix_fields _).2.2.2.1]
  have h4 : (bitbangFix (unsyncedRateFix (standardRateFix d))).useBurstDshot
      = d.useBurstDshot := by
    rw [(bitbangFix_fields _).2.2.2.2, (unsyncedRateFix_fields _).2.2.2.2,
        (standardRateFix_fields _).2.2.2.2]
  split_ifs with hd hg hg <;> simp_all

/-- The value of `motorPwmRate` after the full device chain, over the
original device fields. -/
theorem devChain_rate (sr : Nat) (d : MotorDevCfg) :
    (dshotDevFix sr (bitbangFix (unsyncedRateFix (standardRateFix d)))).motorPwmRate
      = if d.motorPwmProtocol = PWM_TYPE_STANDARD ∧
            d.motorPwmRate > BRUSHLESS_MOTORS_PWM_RATE then BRUSHLESS_MOTORS_PWM_RATE
        else if d.useUnsyncedPwm = true ∧ d.motorPwmProtocol ≤ PWM_TYPE_BRUSHED ∧
            ¬(d.motorPwmProtocol = PWM_TYPE_STANDARD) then
          min d.motorPwmRate (motorUpdateRestrictionHz d.motorPwmProtocol)
        else d.motorPwmRate := by
  rw [(dshotDevFix_fields sr _).2.1, (bitbangFix_fields _).2.2.2.1]
  unfold unsyncedRateFix
  rw [(standardRateFix_fields _).1, (standardRateFix_fields _).2.1]
  unfold standardRateFix
  split_ifs <;> first | rfl | simp_all | omega

/-- The value of `useUnsyncedPwm` after the full device chain, over the
original device fields. -/
theorem devChain_unsynced (sr : Nat) (d : MotorDevCfg) :
    (dshotDevFix sr (bitbangFix (unsyncedRateFix (standardRateFix d)))).useUnsyncedPwm
      = if usingDshotProtocol d.motorPwmProtocol = true then false
        else d.useUnsyncedPwm := by
  rw [dshotDevFix_unsynced]
  rw [(bitbangFix_fields _).1, (unsyncedRateFix_fields _).1, (standardRateFix_fields _).1,
      (bitbangFix_fields _).2.1, (unsyncedRateFix_fields _).2.1,
      (standardRateFix_fields _).2.1]

/-- `usingDshotProtocol` in arithmetic form. -/
theorem usingDshotProtocol_iff (p : Nat) :
    usingDshotProtocol p = true ↔ (p = 8 ∨ p = 7 ∨ p = 6 ∨ p = 5) := by
  unfold usingDshotProtocol PWM_TYPE_PROSHOT1000 PWM_TYPE_DSHOT600 PWM_TYPE_DSHOT300
    PWM_TYPE_DSHOT150
  simp

/-- The protocol survives the full device chain. -/
theorem devChain_protocol (sr : Nat) (d : MotorDevCfg) :
    (dshotDevFix sr (bitbangFix (unsyncedRateFix (standardRateFix d)))).motorPwmProtocol
      = d.motorPwmProtocol := by
  rw [(dshotDevFix_fields sr _).1, (bitbangFix_fields _).1, (unsyncedRateFix_fields _).1,
      (standardRateFix_fields _).1]

/-- The burst flag survives the full device chain. -/
theorem devChain_burst (sr : Nat) (d : MotorDevCfg) :
    (dshotDevFix sr (bitbangFix (unsyncedRateFix (standardRateFix d)))).useBurstDshot
      = d.useBurstDshot := by
  rw [(dshotDevFix_fields sr _).2.2.2, (bitbangFix_fields _).2.2.2.2,
      (unsyncedRateFix_fields _).2.2.2.2, (standardRateFix_fields _).2.2.2.2]

/-- The motor-device rule chain of `validateAndFixConfig` is idempotent. -/
theorem devChain_idem (sr : Nat) (d : MotorDevCfg) :
    dshotDevFix sr (bitbangFix (unsyncedRateFix (standardRateFix
        (dshotDevFix sr (bitbangFix (unsyncedRateFix (standardRateFix d)))))))
      = dshotDevFix sr (bitbangFix (unsyncedRateFix (standardRateFix d))) := by
  apply MotorDevCfg.ext
  · rw [devChain_protocol, devChain_protocol]
  · rw [devChain_rate, devChain_rate, devChain_protocol, devChain_unsynced]
    split_ifs <;> simp_all [usingDshotProtocol_iff, PWM_TYPE_STANDARD, PWM_TYPE_BRUSHED] <;>
      omega
  · rw [devChain_unsynced, devChain_unsynced, devChain_protocol]
    split_ifs <;> rfl
  · rw [devChain_telemetry, devChain_telemetry, devChain_protocol, devChain_bitbang,
        devChain_burst]
    split_ifs <;> simp_all
  · rw [devChain_bitbang, devChain_bitbang, devChain_protocol, devChain_telemetry]
    split_ifs <;> simp_all [DSHOT_BITBANG_ON, DSHOT_BITBANG_AUTO]
  · rw [devChain_burst, devChain_burst]

/-- The gyro filter repair is idempotent. -/
theorem fixGyroFilters_idem (g : GyroCfg) :
    fixGyroFilters (fixGyroFilters g) = fixGyroFilters g := by
  unfold fixGyroFilters adjustFilterLimit
  dsimp only
  ext <;> dsimp only <;> split_ifs <;> omega

/-- The gyro filter repair does not touch hardware lpf or sync denom. -/
theorem fixGyroFilters_lpf_sync (g : GyroCfg) :
    (fixGyroFilters g).gyro_hardware_lpf = g.gyro_hardware_lpf ∧
    (fixGyroFilters g).gyro_sync_denom = g.gyro_sync_denom :=
  ⟨rfl, rfl⟩

/-- The 1 kHz forcing does not touch the hardware lpf. -/
theorem gyro1khzFix_lpf (g : GyroCfg) :
    (gyro1khzFix g).gyro_hardware_lpf = g.gyro_hardware_lpf := by
  unfold gyro1khzFix; split <;> rfl

/-- The 1 kHz forcing is idempotent. -/
theorem gyro1khzFix_idem (g : GyroCfg) :
    gyro1khzFix (gyro1khzFix g) = gyro1khzFix g := by
  unfold gyro1khzFix
  split_ifs <;> simp_all

/-- The 1 kHz forcing commutes with the filter repair. -/
theorem gyro1khz_filters_comm (g : GyroCfg) :
    fixGyroFilters (gyro1khzFix g) = gyro1khzFix (fixGyroFilters g) := by
  unfold gyro1khzFix
  rw [(fixGyroFilters_lpf_sync g).1]
  split_ifs <;> rfl

/-- The gyro rule chain of `validateAndFixGyroConfig` is idempotent. -/
theorem gyroChain_idem (g : GyroCfg) :
    gyro1khzFix (fixGyroFilters (gyro1khzFix (fixGyroFilters g)))
      = gyro1khzFix (fixGyroFilters g) := by
  rw [gyro1khz_filters_comm, fixGyroFilters_idem, gyro1khzFix_idem]

/-- `pid1khzFix` only reads the hardware-lpf field of the gyro group. -/
theorem pid1khzFix_congr (g1 g2 : GyroCfg) (p : PidCfg)
    (h : g1.gyro_hardware_lpf = g2.gyro_hardware_lpf) :
    pid1khzFix g1 p = pid1khzFix g2 p := by
  unfold pid1khzFix
  rw [h]

/-- The synced-branch raise is idempotent. -/
theorem loopPidFix_idem (e : Env) (g : GyroCfg) (u : Bool) (proto : Nat) (p : PidCfg) :
    loopPidFix e g u proto (loopPidFix e g u proto p) = loopPidFix e g u proto p := by
  unfold loopPidFix
  dsimp only
  split_ifs <;> first | rfl | (ext; dsimp only; omega) | simp_all <;> omega

/-- The 1 kHz forcing followed by the loop-time raise is idempotent. -/
theorem pidCore_idem (e : Env) (g : GyroCfg) (u : Bool) (proto : Nat) (p : PidCfg) :
    loopPidFix e g u proto (pid1khzFix g (loopPidFix e g u proto (pid1khzFix g p)))
      = loopPidFix e g u proto (pid1khzFix g p) := by
  by_cases hl : g.gyro_hardware_lpf = GYRO_HARDWARE_LPF_1KHZ_SAMPLE
  · have h1 : ∀ q : PidCfg, pid1khzFix g q = { pid_process_denom := 1 } := by
      intro q; unfold pid1khzFix; rw [if_pos hl]
    rw [h1, h1]
  · have h2 : ∀ q : PidCfg, pid1khzFix g q = q := by
      intro q; unfold pid1khzFix; rw [if_neg hl]
    rw [h2, h2]
    exact loopPidFix_idem e g u proto p

/-- The per-profile repair is idempotent. -/
theorem fixPidProfile_idem (p : PidProfile) :
    fixPidProfile (fixPidProfile p) = fixPidProfile p := by
  unfold fixPidProfile adjustFilterLimit
  dsimp only
  ext <;> dsimp only <;> split_ifs <;> omega

/-- Feed-forward gating is idempotent. -/
theorem feedforwardFix_idem (sm : Bool) (ic : Nat) (p : PidProfile) :
    feedforwardFix sm ic (feedforwardFix sm ic p) = feedforwardFix sm ic p := by
  unfold feedforwardFix
  dsimp only
  split_ifs <;> rfl

/-- The per-profile repair touches no field feed-forward gating touches. -/
theorem fix_feedforward_comm (sm : Bool) (ic : Nat) (p : PidProfile) :
    fixPidProfile (feedforwardFix sm ic p) = feedforwardFix sm ic (fixPidProfile p) := by
  unfold feedforwardFix
  dsimp only
  split_ifs <;> rfl

/-- `rssiFix` does not touch the smoothing/interpolation fields. -/
theorem rssiFix_smoothing (a b c : Bool) (rx : RxCfg) :
    (rssiFix a b c rx).rcSmoothingEnabled = rx.rcSmoothingEnabled ∧
    (rssiFix a b c rx).rcInterpolationChannels = rx.rcInterpolationChannels := by
  unfold rssiFix
  split_ifs <;> exact ⟨rfl, rfl⟩

/-- `rssiFix` is idempotent. -/
theorem rssiFix_idem (a b c : Bool) (rx : RxCfg) :
    rssiFix a b c (rssiFix a b c rx) = rssiFix a b c rx := by
  unfold rssiFix
  split_ifs <;> simp_all

/-! Per-bit projection lemmas for the feature rules. -/

@[simp]
theorem pruneFeatureFix_rxPpm (f : Features) :
    (pruneFeatureFix f).rxPpm = f.rxPpm := rfl

@[simp]
theorem pruneFeatureFix_rxParallelPwm (f : Features) :
    (pruneFeatureFix f).rxParallelPwm = f.rxParallelPwm := rfl

@[simp]
theorem pruneFeatureFix_rxSerial (f : Features) :
    (pruneFeatureFix f).rxSerial = f.rxSerial := rfl

@[simp]
theorem pruneFeatureFix_rxMsp (f : Features) :
    (pruneFeatureFix f).rxMsp = f.rxMsp := rfl

@[simp]
theorem pruneFeatureFix_rxSpi (f : Features) :
    (pruneFeatureFix f).rxSpi = f.rxSpi := rfl

@[simp]
theorem pruneFeatureFix_gps (f : Features) :
    (pruneFeatureFix f).gps = f.gps := rfl

@[simp]
theorem pruneFeatureFix_threeD (f : Features) :
    (pruneFeatureFix f).threeD = f.threeD := rfl

@[simp]
theorem pruneFeatureFix_escSensor (f : Features) :
    (pruneFeatureFix f).escSensor = f.escSensor := rfl

@[simp]
theorem pruneFeatureFix_dynamicFilter (f : Features) :
    (pruneFeatureFix f).dynamicFilter = f.dynamicFilter := rfl

@[simp]
theorem pruneFeatureFix_rssiAdc (f : Features) :
    (pruneFeatureFix f).rssiAdc = f.rssiAdc := rfl

@[simp]
theorem escSensorFeatureFix_rxPpm (a : Bool) (f : Features) :
    (escSensorFeatureFix a f).rxPpm = f.rxPpm := by unfold escSensorFeatureFix; split <;> rfl

@[simp]
theorem escSensorFeatureFix_rxParallelPwm (a : Bool) (f : Features) :
    (escSensorFeatureFix a f).rxParallelPwm = f.rxParallelPwm := by unfold escSensorFeatureFix; split <;> rfl

@[simp]
theorem escSensorFeatureFix_rxSerial (a : Bool) (f : Features) :
    (escSensorFeatureFix a f).rxSerial = f.rxSerial := by unfold escSensorFeatureFix; split <;> rfl

@[simp]
theorem escSensorFeatureFix_rxMsp (a : Bool) (f : Features) :
    (escSensorFeatureFix a f).rxMsp = f.rxMsp := by unfold escSensorFeatureFix; split <;> rfl

@[simp]
theorem escSensorFeatureFix_rxSpi (a : Bool) (f : Features) :
    (escSensorFeatureFix a f).rxSpi = f.rxSpi := by unfold escSensorFeatureFix; split <;> rfl

@[simp]
theorem escSensorFeatureFix_gps (a : Bool) (f : Features) :
    (escSensorFeatureFix a f).gps = f.gps := by unfold escSensorFeatureFix; split <;> rfl

@[simp]
theorem escSensorFeatureFix_threeD (a : Bool) (f : Features) :
    (escSensorFeatureFix a f).threeD = f.threeD := by unfold escSensorFeatureFix; split <;> rfl

@[simp]
theorem escSensorFeatureFix_dynamicFilter (a : Bool) (f : Features) :
    (escSensorFeatureFix a f).dynamicFilter = f.dynamicFilter := by unfold escSensorFeatureFix; split <;> rfl

@[simp]
theorem escSensorFeatureFix_rssiAdc (a : Bool) (f : Features) :
    (escSensorFeatureFix a f).rssiAdc = f.rssiAdc := by unfold escSensorFeatureFix; split <;> rfl

@[simp]
theorem escSensorFeatureFix_softSpi (a : Bool) (f : Features) :
    (escSensorFeatureFix a f).softSpi = f.softSpi := by unfold escSensorFeatureFix; split <;> rfl

@[simp]
theorem dynFilterFeatureFix_rxPpm (e : Env) (f : Features) :
    (dynFilterFeatureFix e f).rxPpm = f.rxPpm := by unfold dynFilterFeatureFix; split <;> rfl

@[simp]
theorem dynFilterFeatureFix_rxParallelPwm (e : Env) (f : Features) :
    (dynFilterFeatureFix e f).rxParallelPwm = f.rxParallelPwm := by unfold dynFilterFeatureFix; split <;> rfl

@[simp]
theorem dynFilterFeatureFix_rxSerial (e : Env) (f : Features) :
    (dynFilterFeatureFix e f).rxSerial = f.rxSerial := by unfold dynFilterFeatureFix; split <;> rfl

@[simp]
theorem dynFilterFeatureFix_rxMsp (e : Env) (f : Features) :
    (dynFilterFeatureFix e f).rxMsp = f.rxMsp := by unfold dynFilterFeatureFix; split <;> rfl

@[simp]
theorem dynFilterFeatureFix_rxSpi (e : Env) (f : Features) :
    (dynFilterFeatureFix e f).rxSpi = f.rxSpi := by unfold dynFilterFeatureFix; split <;> rfl

@[simp]
theorem dynFilterFeatureFix_gps (e : Env) (f : Features) :
    (dynFilterFeatureFix e f).gps = f.gps := by unfold dynFilterFeatureFix; split <;> rfl

@[simp]
theorem dynFilterFeatureFix_threeD (e : Env) (f : Features) :
    (dynFilterFeatureFix e f).threeD = f.threeD := by unfold dynFilterFeatureFix; split <;> rfl

@[simp]
theorem dynFilterFeatureFix_escSensor (e : Env) (f : Features) :
    (dynFilterFeatureFix e f).escSensor = f.escSensor := by unfold dynFilterFeatureFix; split <;> rfl

@[simp]
theorem dynFilterFeatureFix_rssiAdc (e : Env) (f : Features) :
    (dynFilterFeatureFix e f).rssiAdc = f.rssiAdc := by unfold dynFilterFeatureFix; split <;> rfl

@[simp]
theorem dynFilterFeatureFix_softSpi (e : Env) (f : Features) :
    (dynFilterFeatureFix e f).softSpi = f.softSpi := by unfold dynFilterFeatureFix; split <;> rfl

@[simp]
theorem brushedFeaturesFix_rxPpm (proto : Nat) (f : Features) :
    (brushedFeaturesFix proto f).rxPpm = f.rxPpm := by unfold brushedFeaturesFix; split <;> rfl

@[simp]
theorem brushedFeaturesFix_rxParallelPwm (proto : Nat) (f : Features) :
    (brushedFeaturesFix proto f).rxParallelPwm = f.rxParallelPwm := by unfold brushedFeaturesFix; split <;> rfl

@[simp]
theorem brushedFeaturesFix_rxSerial (proto : Nat) (f : Features) :
    (brushedFeaturesFix proto f).rxSerial = f.rxSerial := by unfold brushedFeaturesFix; split <;> rfl

@[simp]
theorem brushedFeaturesFix_rxMsp (proto : Nat) (f : Features) :
    (brushedFeaturesFix proto f).rxMsp = f.rxMsp := by unfold brushedFeaturesFix; split <;> rfl

@[simp]
theorem brushedFeaturesFix_rxSpi (proto : Nat) (f : Features) :
    (brushedFeaturesFix proto f).rxSpi = f.rxSpi := by unfold brushedFeaturesFix; split <;> rfl

@[simp]
theorem brushedFeaturesFix_gps (proto : Nat) (f : Features) :
    (brushedFeaturesFix proto f).gps = f.gps := by unfold brushedFeaturesFix; split <;> rfl

@[simp]
theorem brushedFeaturesFix_escSensor (proto : Nat) (f : Features) :
    (brushedFeaturesFix proto f).escSensor = f.escSensor := by unfold brushedFeaturesFix; split <;> rfl

@[simp]
theorem brushedFeaturesFix_dynamicFilter (proto : Nat) (f : Features) :
    (brushedFeaturesFix proto f).dynamicFilter = f.dynamicFilter := by unfold brushedFeaturesFix; split <;> rfl

@[simp]
theorem brushedFeaturesFix_rssiAdc (proto : Nat) (f : Features) :
    (brushedFeaturesFix proto f).rssiAdc = f.rssiAdc := by unfold brushedFeaturesFix; split <;> rfl

@[simp]
theorem brushedFeaturesFix_softSpi (proto : Nat) (f : Features) :
    (brushedFeaturesFix proto f).softSpi = f.softSpi := by unfold brushedFeaturesFix; split <;> rfl

@[simp]
theorem gpsFeatureFix_rxPpm (prov : Nat) (w : Bool) (f : Features) :
    (gpsFeatureFix prov w f).rxPpm = f.rxPpm := by unfold gpsFeatureFix; split <;> rfl

@[simp]
theorem gpsFeatureFix_rxParallelPwm (prov : Nat) (w : Bool) (f : Features) :
    (gpsFeatureFix prov w f).rxParallelPwm = f.rxParallelPwm := by unfold gpsFeatureFix; split <;> rfl

@[simp]
theorem gpsFeatureFix_rxSerial (prov : Nat) (w : Bool) (f : Features) :
    (gpsFeatureFix prov w f).rxSerial = f.rxSerial := by unfold gpsFeatureFix; split <;> rfl

@[simp]
theorem gpsFeatureFix_rxMsp (prov : Nat) (w : Bool) (f : Features) :
    (gpsFeatureFix prov w f).rxMsp = f.rxMsp := by unfold gpsFeatureFix; split <;> rfl

@[simp]
theorem gpsFeatureFix_rxSpi (prov : Nat) (w : Bool) (f : Features) :
    (gpsFeatureFix prov w f).rxSpi = f.rxSpi := by unfold gpsFeatureFix; split <;> rfl

@[simp]
theorem gpsFeatureFix_threeD (prov : Nat) (w : Bool) (f : Features) :
    (gpsFeatureFix prov w f).threeD = f.threeD := by unfold gpsFeatureFix; split <;> rfl

@[simp]
theorem gpsFeatureFix_escSensor (prov : Nat) (w : Bool) (f : Features) :
    (gpsFeatureFix prov w f).escSensor = f.escSensor := by unfold gpsFeatureFix; split <;> rfl

@[simp]
theorem gpsFeatureFix_dynamicFilter (prov : Nat) (w : Bool) (f : Features) :
    (gpsFeatureFix prov w f).dynamicFilter = f.dynamicFilter := by unfold gpsFeatureFix; split <;> rfl

@[simp]
theorem gpsFeatureFix_rssiAdc (prov : Nat) (w : Bool) (f : Features) :
    (gpsFeatureFix prov w f).rssiAdc = f.rssiAdc := by unfold gpsFeatureFix; split <;> rfl

@[simp]
theorem gpsFeatureFix_softSpi (prov : Nat) (w : Bool) (f : Features) :
    (gpsFeatureFix prov w f).softSpi = f.softSpi := by unfold gpsFeatureFix; split <;> rfl

@[simp]
theorem rxFeaturesFix_gps (f : Features) :
    (rxFeaturesFix f).gps = f.gps := by
  obtain ⟨fp, fpa, fse, fm, fsp, fg, ft, fes, fdy, frs, fso⟩ := f
  cases fp <;> cases fpa <;> cases fse <;> cases fm <;> cases fsp <;>
    simp [rxFeaturesFix]

@[simp]
theorem rxFeaturesFix_threeD (f : Features) :
    (rxFeaturesFix f).threeD = f.threeD := by
  obtain ⟨fp, fpa, fse, fm, fsp, fg, ft, fes, fdy, frs, fso⟩ := f
  cases fp <;> cases fpa <;> cases fse <;> cases fm <;> cases fsp <;>
    simp [rxFeaturesFix]

@[simp]
theorem rxFeaturesFix_escSensor (f : Features) :
    (rxFeaturesFix f).escSensor = f.escSensor := by
  obtain ⟨fp, fpa, fse, fm, fsp, fg, ft, fes, fdy, frs, fso⟩ := f
  cases fp <;> cases fpa <;> cases fse <;> cases fm <;> cases fsp <;>
    simp [rxFeaturesFix]

@[simp]
theorem rxFeaturesFix_dynamicFilter (f : Features) :
    (rxFeaturesFix f).dynamicFilter = f.dynamicFilter := by
  obtain ⟨fp, fpa, fse, fm, fsp, fg, ft, fes, fdy, frs, fso⟩ := f
  cases fp <;> cases fpa <;> cases fse <;> cases fm <;> cases fsp <;>
    simp [rxFeaturesFix]

@[simp]
theorem rxFeaturesFix_rssiAdc (f : Features) :
    (rxFeaturesFix f).rssiAdc = f.rssiAdc := by
  obtain ⟨fp, fpa, fse, fm, fsp, fg, ft, fes, fdy, frs, fso⟩ := f
  cases fp <;> cases fpa <;> cases fse <;> cases fm <;> cases fsp <;>
    simp [rxFeaturesFix]

@[simp]
theorem rxFeaturesFix_softSpi (f : Features) :
    (rxFeaturesFix f).softSpi = f.softSpi := by
  obtain ⟨fp, fpa, fse, fm, fsp, fg, ft, fes, fdy, frs, fso⟩ := f
  cases fp <;> cases fpa <;> cases fse <;> cases fm <;> cases fsp <;>
    simp [rxFeaturesFix]

/-- The five receiver-input output bits of `rxFeaturesFix` depend only
on its five receiver-input input bits. -/
theorem rxFeaturesFix_congr_five (f g : Features)
    (h1 : f.rxPpm = g.rxPpm) (h2 : f.rxParallelPwm = g.rxParallelPwm)
    (h3 : f.rxSerial = g.rxSerial) (h4 : f.rxMsp = g.rxMsp)
    (h5 : f.rxSpi = g.rxSpi) :
    (rxFeaturesFix f).rxPpm = (rxFeaturesFix g).rxPpm ∧
    (rxFeaturesFix f).rxParallelPwm = (rxFeaturesFix g).rxParallelPwm ∧
    (rxFeaturesFix f).rxSerial = (rxFeaturesFix g).rxSerial ∧
    (rxFeaturesFix f).rxMsp = (rxFeaturesFix g).rxMsp ∧
    (rxFeaturesFix f).rxSpi = (rxFeaturesFix g).rxSpi := by
  obtain ⟨fp, fpa, fse, fm, fsp, fg, ft, fes, fdy, frs, fso⟩ := f
  obtain ⟨gp, gpa, gse, gm, gsp, gg, gt, ges, gdy, grs, gso⟩ := g
  dsimp only at h1 h2 h3 h4 h5
  subst h1 h2 h3 h4 h5
  cases fp <;> cases fpa <;> cases fse <;> cases fm <;> cases fsp <;>
    simp [rxFeaturesFix]

/-- Receiver-input exclusivity is idempotent. -/
theorem rxFeaturesFix_idem (f : Features) :
    rxFeaturesFix (rxFeaturesFix f) = rxFeaturesFix f := by
  obtain ⟨fp, fpa, fse, fm, fsp, fg, ft, fes, fdy, frs, fso⟩ := f
  cases fp <;> cases fpa <;> cases fse <;> cases fm <;> cases fsp <;>
    simp [rxFeaturesFix]

/-- The feature chain's `gps` bit. -/
theorem featuresChain_gps (e : Env) (prov : Nat) (w a : Bool) (proto : Nat)
    (f : Features) :
    (featuresChain e prov w a proto f).gps =
      if ¬(prov = GPS_MSP) ∧ ¬(w = true) then false else f.gps := by
  unfold featuresChain
  simp only [pruneFeatureFix_gps, escSensorFeatureFix_gps, rxFeaturesFix_gps,
    dynFilterFeatureFix_gps, brushedFeaturesFix_gps]
  unfold gpsFeatureFix
  split_ifs <;> simp_all

/-- The feature chain's `threeD` bit. -/
theorem featuresChain_threeD (e : Env) (prov : Nat) (w a : Bool) (proto : Nat)
    (f : Features) :
    (featuresChain e prov w a proto f).threeD =
      if proto = PWM_TYPE_BRUSHED then false else f.threeD := by
  unfold featuresChain
  simp only [pruneFeatureFix_threeD, escSensorFeatureFix_threeD, rxFeaturesFix_threeD,
    dynFilterFeatureFix_threeD, gpsFeatureFix_threeD]
  unfold brushedFeaturesFix
  split_ifs <;> simp_all

/-- The feature chain's `dynamicFilter` bit. -/
theorem featuresChain_dynamicFilter (e : Env) (prov : Nat) (w a : Bool)
    (proto : Nat) (f : Features) :
    (featuresChain e prov w a proto f).dynamicFilter =
      if e.targetLooptimeUs > DYNAMIC_FILTER_MAX_SUPPORTED_LOOP_TIME then false
      else f.dynamicFilter := by
  unfold featuresChain
  simp only [pruneFeatureFix_dynamicFilter, escSensorFeatureFix_dynamicFilter,
    rxFeaturesFix_dynamicFilter, brushedFeaturesFix_dynamicFilter,
    gpsFeatureFix_dynamicFilter]
  unfold dynFilterFeatureFix
  split_ifs <;> simp_all

/-- The feature chain's `escSensor` bit. -/
theorem featuresChain_escSensor (e : Env) (prov : Nat) (w a : Bool) (proto : Nat)
    (f : Features) :
    (featuresChain e prov w a proto f).escSensor =
      if ¬(a = true) then false else f.escSensor := by
  unfold featuresChain
  simp only [pruneFeatureFix_escSensor]
  unfold escSensorFeatureFix
  split_ifs <;> simp_all

/-- The feature chain's `rssiAdc` bit. -/
theorem featuresChain_rssiAdc (e : Env) (prov : Nat) (w a : Bool) (proto : Nat)
    (f : Features) :
    (featuresChain e prov w a proto f).rssiAdc = f.rssiAdc := by
  unfold featuresChain
  simp

/-- The feature chain's `softSpi` bit. -/
theorem featuresChain_softSpi (e : Env) (prov : Nat) (w a : Bool) (proto : Nat)
    (f : Features) :
    (featuresChain e prov w a proto f).softSpi = false := rfl

/-- The five receiver-input bits of the feature chain are those of
`rxFeaturesFix` alone: no other rule in the chain touches them. -/
theorem featuresChain_five (e : Env) (prov : Nat) (w a : Bool) (proto : Nat)
    (f : Features) :
    (featuresChain e prov w a proto f).rxPpm = (rxFeaturesFix f).rxPpm ∧
    (featuresChain e prov w a proto f).rxParallelPwm
      = (rxFeaturesFix f).rxParallelPwm ∧
    (featuresChain e prov w a proto f).rxSerial = (rxFeaturesFix f).rxSerial ∧
    (featuresChain e prov w a proto f).rxMsp = (rxFeaturesFix f).rxMsp ∧
    (featuresChain e prov w a proto f).rxSpi = (rxFeaturesFix f).rxSpi := by
  unfold featuresChain
  simp only [pruneFeatureFix_rxPpm, pruneFeatureFix_rxParallelPwm,
    pruneFeatureFix_rxSerial, pruneFeatureFix_rxMsp, pruneFeatureFix_rxSpi,
    escSensorFeatureFix_rxPpm, escSensorFeatureFix_rxParallelPwm,
    escSensorFeatureFix_rxSerial, escSensorFeatureFix_rxMsp,
    escSensorFeatureFix_rxSpi]
  exact rxFeaturesFix_congr_five _ _ (by simp) (by simp) (by simp) (by simp)
    (by simp)

/-- Applying `rxFeaturesFix` to a chain output changes none of the five
receiver-input bits: they are already exclusive. -/
theorem rxFix_of_chain_five (e : Env) (prov : Nat) (w a : Bool) (proto : Nat)
    (f : Features) :
    (rxFeaturesFix (featuresChain e prov w a proto f)).rxPpm
      = (featuresChain e prov w a proto f).rxPpm ∧
    (rxFeaturesFix (featuresChain e prov w a proto f)).rxParallelPwm
      = (featuresChain e prov w a proto f).rxParallelPwm ∧
    (rxFeaturesFix (featuresChain e prov w a proto f)).rxSerial
      = (featuresChain e prov w a proto f).rxSerial ∧
    (rxFeaturesFix (featuresChain e prov w a proto f)).rxMsp
      = (featuresChain e prov w a proto f).rxMsp ∧
    (rxFeaturesFix (featuresChain e prov w a proto f)).rxSpi
      = (featuresChain e prov w a proto f).rxSpi := by
  have h5 := featuresChain_five e prov w a proto f
  have hc := rxFeaturesFix_congr_five (featuresChain e prov w a proto f)
    (rxFeaturesFix f) h5.1 h5.2.1 h5.2.2.1 h5.2.2.2.1 h5.2.2.2.2
  refine ⟨?_, ?_, ?_, ?_, ?_⟩
  · rw [hc.1, rxFeaturesFix_idem]; exact h5.1.symm
  · rw [hc.2.1, rxFeaturesFix_idem]; exact h5.2.1.symm
  · rw [hc.2.2.1, rxFeaturesFix_idem]; exact h5.2.2.1.symm
  · rw [hc.2.2.2.1, rxFeaturesFix_idem]; exact h5.2.2.2.1.symm
  · rw [hc.2.2.2.2, rxFeaturesFix_idem]; exact h5.2.2.2.2.symm

/-- The feature chain reaches a fixed point after one pass, even when
the GPS-port parameter of the second pass differs — that can only
happen when the provider is MSP, and then the `gps` bit never depends
on the port. -/
theorem featuresChain_idem (e : Env) (prov : Nat) (w1 w2 a : Bool) (proto : Nat)
    (f : Features) (hw : prov = GPS_MSP ∨ w1 = w2) :
    featuresChain e prov w2 a proto (featuresChain e prov w1 a proto f)
      = featuresChain e prov w1 a proto f := by
  apply Features.ext
  · rw [(featuresChain_five e prov w2 a proto _).1]
    exact (rxFix_of_chain_five e prov w1 a proto f).1
  · rw [(featuresChain_five e prov w2 a proto _).2.1]
    exact (rxFix_of_chain_five e prov w1 a proto f).2.1
  · rw [(featuresChain_five e prov w2 a proto _).2.2.1]
    exact (rxFix_of_chain_five e prov w1 a proto f).2.2.1
  · rw [(featuresChain_five e prov w2 a proto _).2.2.2.1]
    exact (rxFix_of_chain_five e prov w1 a proto f).2.2.2.1
  · rw [(featuresChain_five e prov w2 a proto _).2.2.2.2]
    exact (rxFix_of_chain_five e prov w1 a proto f).2.2.2.2
  · rw [featuresChain_gps, featuresChain_gps]
    rcases hw with h | h
    · simp [h]
    · subst h
      split_ifs <;> rfl
  · rw [featuresChain_threeD, featuresChain_threeD]
    split_ifs <;> rfl
  · rw [featuresChain_escSensor, featuresChain_escSensor]
    split_ifs <;> rfl
  · rw [featuresChain_dynamicFilter, featuresChain_dynamicFilter]
    split_ifs <;> rfl
  · rw [featuresChain_rssiAdc, featuresChain_rssiAdc]
  · rw [featuresChain_softSpi, featuresChain_softSpi]

/-! Mode-activation-condition lemmas for the idempotence analysis. -/

/-- `removeMac` keeps every surviving binding unlinked when the input
bindings were all unlinked (the zero-fill tail is unlinked as well). -/
theorem removeMac_no_linked (mid : Nat) (ms : List Mac)
    (h : ∀ m ∈ ms, m.linkedTo = 0) :
    ∀ m ∈ removeMac mid ms, m.linkedTo = 0 := by
  intro m hm
  unfold removeMac at hm
  rcases List.mem_append.mp hm with h1 | h2
  · exact h m (List.mem_of_mem_filter h1)
  · rw [List.eq_of_mem_replicate h2]; rfl

/-- The GPS-rescue binding removal keeps all bindings unlinked. -/
theorem rescueMacsFix_no_linked (b : Bool) (ms : List Mac)
    (h : ∀ m ∈ ms, m.linkedTo = 0) :
    ∀ m ∈ rescueMacsFix b ms, m.linkedTo = 0 := by
  unfold rescueMacsFix
  split
  · exact removeMac_no_linked _ _ h
  · exact h

/-- One step of the link-validation loop does nothing when the examined
slot has no link. -/
theorem macDedupStep_of_no_linked (ms : List Mac) (i : Nat)
    (h : ∀ m ∈ ms, m.linkedTo = 0) : macDedupStep ms i = ms := by
  unfold macDedupStep
  split
  · rfl
  · rename_i mac hg
    rw [if_neg]
    rintro ⟨h1, -⟩
    exact h1 (h mac (List.get?_mem hg))

/-- The link-validation loop (config.c:382-390) is the identity when no
binding is linked. -/
theorem macDedup_of_no_linked (ms : List Mac)
    (h : ∀ m ∈ ms, m.linkedTo = 0) : macDedup ms = ms := by
  unfold macDedup
  generalize List.range ms.length = l
  induction l with
  | nil => rfl
  | cons a t ih => rw [List.foldl_cons, macDedupStep_of_no_linked ms a h]; exact ih

/-- After removing every binding of a nonzero mode, the mode is no
longer present (the zero-filled tail binds mode 0). -/
theorem macPresent_removeMac_self (mid : Nat) (ms : List Mac)
    (h : ¬(mid = 0)) : macPresent mid (removeMac mid ms) = false := by
  unfold macPresent removeMac
  rw [List.any_append]
  apply Bool.or_eq_false_iff.mpr
  constructor
  · rw [List.any_eq_false]
    intro m hm
    have := (List.mem_filter.mp hm).2
    simp only [decide_eq_true_eq] at this ⊢
    exact this
  · rw [List.any_eq_false]
    intro m hm
    rw [List.eq_of_mem_replicate hm]
    simp only [decide_eq_true_eq]
    exact fun hh => h hh.symm

/-- The GPS-rescue binding removal is idempotent. -/
theorem rescueMacsFix_idem (b : Bool) (ms : List Mac) :
    rescueMacsFix b (rescueMacsFix b ms) = rescueMacsFix b ms := by
  unfold rescueMacsFix
  split_ifs with h1 h2 <;> try rfl
  exact absurd h2.2 (by
    rw [macPresent_removeMac_self _ _ (by decide)]
    simp)

/-- The two mode-activation rewrites of `validateAndFixConfig` reach a
fixed point after one pass when no binding is linked. -/
theorem macsChain_idem (b : Bool) (ms : List Mac)
    (h : ∀ m ∈ ms, m.linkedTo = 0) :
    macDedup (rescueMacsFix b (macDedup (rescueMacsFix b ms)))
      = macDedup (rescueMacsFix b ms) := by
  have h1 := rescueMacsFix_no_linked b ms h
  rw [macDedup_of_no_linked _ h1, rescueMacsFix_idem]
  exact macDedup_of_no_linked _ h1

/-! Closed forms of every field of `validateAndFixConfig`: each rule
writes one group, so each field projection of the pipeline is the
composition of the rules that touch it, reading the stage values shown. -/

/-- Mixer mode after the full repair pass. -/
theorem V_mixer (e : Env) (c : Config) :
    (validateAndFixConfig e c).mixer
      = { mixerMode := mixerModeFix e c.mixer.mixerMode } := rfl

/-- Serial configuration after the full repair pass. -/
theorem V_serial (e : Env) (c : Config) :
    (validateAndFixConfig e c).serial
      = gpsSerialFix c.gpsCfg.provider (serialFix c.serial) := rfl

/-- The GPS provider group is never written. -/
theorem V_gpsCfg (e : Env) (c : Config) :
    (validateAndFixConfig e c).gpsCfg = c.gpsCfg := rfl

/-- Feature bits after the full repair pass, as the feature chain. -/
theorem V_features (e : Env) (c : Config) :
    (validateAndFixConfig e c).features =
      featuresChain e c.gpsCfg.provider (serialFix c.serial).hasGpsPort
        (gpsSerialFix c.gpsCfg.provider (serialFix c.serial)).hasEscSensorPort
        c.motor.dev.motorPwmProtocol c.features := rfl

/-- Motor device settings after the full repair pass. -/
theorem V_motor_dev (e : Env) (c : Config) :
    (validateAndFixConfig e c).motor.dev =
      dshotDevFix c.system.schedulerOptimizeRate
        (bitbangFix (unsyncedRateFix (standardRateFix c.motor.dev))) := rfl

/-- Motor minimum command after the full repair pass. -/
theorem V_motor_mincommand (e : Env) (c : Config) :
    (validateAndFixConfig e c).motor.mincommand =
      brushedMincommandFix c.motor.dev.motorPwmProtocol c.motor.mincommand := rfl

/-- Gyro group after the full repair pass. -/
theorem V_gyro (e : Env) (c : Config) :
    (validateAndFixConfig e c).gyro = gyro1khzFix (fixGyroFilters c.gyro) := rfl

/-- PID process configuration after the full repair pass. -/
theorem V_pidCfg (e : Env) (c : Config) :
    (validateAndFixConfig e c).pidCfg =
      loopPidFix e (gyro1khzFix (fixGyroFilters c.gyro))
        (standardRateFix c.motor.dev).useUnsyncedPwm
        (standardRateFix c.motor.dev).motorPwmProtocol
        (pid1khzFix (fixGyroFilters c.gyro) c.pidCfg) := rfl

/-- System settings after the full repair pass. -/
theorem V_system (e : Env) (c : Config) :
    (validateAndFixConfig e c).system =
      indexFix (c.pidProfiles.map fixPidProfile).length c.system := rfl

/-- Receiver channel configuration after the full repair pass. -/
theorem V_rx (e : Env) (c : Config) :
    (validateAndFixConfig e c).rx =
      rssiFix (midFeatures e c).rssiAdc (midFeatures e c).rxPpm
        (midFeatures e c).rxParallelPwm c.rx := rfl

/-- Failsafe configuration after the full repair pass. -/
theorem V_failsafe (e : Env) (c : Config) :
    (validateAndFixConfig e c).failsafe =
      rescueFailsafeFix ((midFeatures e c).threeD || !(midFeatures e c).gps)
        c.failsafe := rfl

/-- Mode activation conditions after the full repair pass. -/
theorem V_macs (e : Env) (c : Config) :
    (validateAndFixConfig e c).macs =
      macDedup (rescueMacsFix ((midFeatures e c).threeD || !(midFeatures e c).gps)
        c.macs) := rfl

/-- Beeper configuration after the full repair pass. -/
theorem V_beeper (e : Env) (c : Config) :
    (validateAndFixConfig e c).beeper = beeperFix e c.beeper := rfl

/-- OSD timers after the full repair pass. -/
theorem V_osdTimers (e : Env) (c : Config) :
    (validateAndFixConfig e c).osdTimers = c.osdTimers.map osdTimerFix := rfl

/-- VTX settings after the full repair pass. -/
theorem V_vtxSettings (e : Env) (c : Config) :
    (validateAndFixConfig e c).vtxSettings = vtxFix c.vtxTable c.vtxSettings := rfl

/-- The VTX table is never written. -/
theorem V_vtxTable (e : Env) (c : Config) :
    (validateAndFixConfig e c).vtxTable = c.vtxTable := rfl

/-- Compass alignment after the full repair pass. -/
theorem V_compassAlign (e : Env) (c : Config) :
    (validateAndFixConfig e c).compassAlign =
      { standard := c.compassAlign.standard
        custom := buildAlignment c.compassAlign.standard c.compassAlign.custom } := rfl

/-- Gyro 0 alignment after the full repair pass. -/
theorem V_gyroDev0Align (e : Env) (c : Config) :
    (validateAndFixConfig e c).gyroDev0Align =
      { standard := c.gyroDev0Align.standard
        custom := buildAlignment c.gyroDev0Align.standard c.gyroDev0Align.custom } := rfl

/-- Current PID-profile pointer after the full repair pass. -/
theorem V_currentPidProfileIndex (e : Env) (c : Config) :
    (validateAndFixConfig e c).currentPidProfileIndex =
      (indexFix (c.pidProfiles.map fixPidProfile).length c.system).pidProfileIndex := rfl

/-- Current rate-profile pointer after the full repair pass. -/
theorem V_currentRateProfileIndex (e : Env) (c : Config) :
    (validateAndFixConfig e c).currentRateProfileIndex =
      (indexFix (c.pidProfiles.map fixPidProfile).length c.system).activeRateProfile := rfl

/-! Stage-value lemmas used by the idempotence assembly. -/

/-- A repaired serial configuration is structurally valid, so a second
`serialFix` leaves it alone. -/
theorem serialFix_gpsSerialFix (p : Nat) (s : SerialCfg) :
    serialFix (gpsSerialFix p (serialFix s)) = gpsSerialFix p (serialFix s) :=
  serialFix_of_valid _ (by rw [gpsSerialFix_valid]; exact serialFix_valid s)

/-- With a non-MSP provider the GPS-port removal does nothing. -/
theorem gpsSerialFix_not_msp (p : Nat) (s : SerialCfg) (h : ¬(p = GPS_MSP)) :
    gpsSerialFix p s = s := by
  unfold gpsSerialFix
  rw [if_neg]
  rintro ⟨hm, -⟩
  exact h hm

/-- The brushed-motor minimum-command rule is idempotent. -/
theorem brushedMincommandFix_idem (proto mc : Nat) :
    brushedMincommandFix proto (brushedMincommandFix proto mc)
      = brushedMincommandFix proto mc := by
  unfold brushedMincommandFix
  split_ifs <;> omega

/-- The profile-index bounds check does not touch the scheduler mode. -/
theorem indexFix_scheduler (n : Nat) (s : SystemCfg) :
    (indexFix n s).schedulerOptimizeRate = s.schedulerOptimizeRate := rfl

/-- The mid-pipeline feature value keeps the ADC-RSSI bit. -/
theorem midFeatures_rssiAdc (e : Env) (c : Config) :
    (midFeatures e c).rssiAdc = c.features.rssiAdc := by
  unfold midFeatures
  simp

/-- The mid-pipeline `threeD` bit is the brushed-rule output. -/
theorem midFeatures_threeD (e : Env) (c : Config) :
    (midFeatures e c).threeD =
      if c.motor.dev.motorPwmProtocol = PWM_TYPE_BRUSHED then false
      else c.features.threeD := by
  unfold midFeatures
  simp only [rxFeaturesFix_threeD, dynFilterFeatureFix_threeD, gpsFeatureFix_threeD]
  unfold brushedFeaturesFix
  split_ifs <;> simp_all

/-- The mid-pipeline `gps` bit is the GPS-port-rule output. -/
theorem midFeatures_gps (e : Env) (c : Config) :
    (midFeatures e c).gps =
      if ¬(c.gpsCfg.provider = GPS_MSP) ∧
          ¬((serialFix c.serial).hasGpsPort = true) then false
      else c.features.gps := by
  unfold midFeatures
  simp only [rxFeaturesFix_gps, dynFilterFeatureFix_gps, brushedFeaturesFix_gps]
  unfold gpsFeatureFix
  split_ifs <;> simp_all

/-- The mid-pipeline receiver-input bits are those of `rxFeaturesFix`. -/
theorem midFeatures_five (e : Env) (c : Config) :
    (midFeatures e c).rxPpm = (rxFeaturesFix c.features).rxPpm ∧
    (midFeatures e c).rxParallelPwm = (rxFeaturesFix c.features).rxParallelPwm := by
  unfold midFeatures
  have h := rxFeaturesFix_congr_five
    (dynFilterFeatureFix e (brushedFeaturesFix c.motor.dev.motorPwmProtocol
      (gpsFeatureFix c.gpsCfg.provider (serialFix c.serial).hasGpsPort c.features)))
    c.features (by simp) (by simp) (by simp) (by simp) (by simp)
  exact ⟨h.1, h.2.1⟩

/-- The repaired feature bits still carry exclusive receiver-input bits:
they agree with a single `rxFeaturesFix` pass. -/
theorem V_features_five (e : Env) (c : Config) :
    (validateAndFixConfig e c).features.rxPpm = (rxFeaturesFix c.features).rxPpm ∧
    (validateAndFixConfig e c).features.rxParallelPwm
      = (rxFeaturesFix c.features).rxParallelPwm ∧
    (validateAndFixConfig e c).features.rxSerial
      = (rxFeaturesFix c.features).rxSerial ∧
    (validateAndFixConfig e c).features.rxMsp = (rxFeaturesFix c.features).rxMsp ∧
    (validateAndFixConfig e c).features.rxSpi = (rxFeaturesFix c.features).rxSpi := by
  rw [V_features]
  exact featuresChain_five _ _ _ _ _ _

/-- Running the pass again reads the same ADC-RSSI bit. -/
theorem midFeatures_of_V_rssiAdc (e : Env) (c : Config) :
    (midFeatures e (validateAndFixConfig e c)).rssiAdc = (midFeatures e c).rssiAdc := by
  rw [midFeatures_rssiAdc, midFeatures_rssiAdc, V_features, featuresChain_rssiAdc]

/-- Running the pass again reads the same PPM bit. -/
theorem midFeatures_of_V_rxPpm (e : Env) (c : Config) :
    (midFeatures e (validateAndFixConfig e c)).rxPpm = (midFeatures e c).rxPpm := by
  rw [(midFeatures_five e (validateAndFixConfig e c)).1, (midFeatures_five e c).1]
  have hc := rxFeaturesFix_congr_five (validateAndFixConfig e c).features
    (rxFeaturesFix c.features) (V_features_five e c).1 (V_features_five e c).2.1
    (V_features_five e c).2.2.1 (V_features_five e c).2.2.2.1
    (V_features_five e c).2.2.2.2
  rw [hc.1, rxFeaturesFix_idem]

/-- Running the pass again reads the same parallel-PWM bit. -/
theorem midFeatures_of_V_rxParallelPwm (e : Env) (c : Config) :
    (midFeatures e (validateAndFixConfig e c)).rxParallelPwm
      = (midFeatures e c).rxParallelPwm := by
  rw [(midFeatures_five e (validateAndFixConfig e c)).2, (midFeatures_five e c).2]
  have hc := rxFeaturesFix_congr_five (validateAndFixConfig e c).features
    (rxFeaturesFix c.features) (V_features_five e c).1 (V_features_five e c).2.1
    (V_features_five e c).2.2.1 (V_features_five e c).2.2.2.1
    (V_features_five e c).2.2.2.2
  rw [hc.2.1, rxFeaturesFix_idem]

/-- Running the pass again reads the same `threeD` bit. -/
theorem midFeatures_of_V_threeD (e : Env) (c : Config) :
    (midFeatures e (validateAndFixConfig e c)).threeD = (midFeatures e c).threeD := by
  rw [midFeatures_threeD, midFeatures_threeD, V_motor_dev, devChain_protocol,
    V_features, featuresChain_threeD]
  split_ifs <;> rfl

/-- Running the pass again reads the same `gps` bit. -/
theorem midFeatures_of_V_gps (e : Env) (c : Config) :
    (midFeatures e (validateAndFixConfig e c)).gps = (midFeatures e c).gps := by
  rw [midFeatures_gps, midFeatures_gps, V_gpsCfg, V_serial, serialFix_gpsSerialFix,
    V_features, featuresChain_gps]
  by_cases hp : c.gpsCfg.provider = GPS_MSP
  · simp [hp]
  · rw [gpsSerialFix_not_msp _ _ hp]
    split_ifs <;> rfl

/-! Per-field idempotence of `validateAndFixConfig`. -/

/-- PID profiles after the pass, with the RSSI-rule frame equalities
applied to the feed-forward parameters. -/
theorem V_pidProfiles (e : Env) (c : Config) :
    (validateAndFixConfig e c).pidProfiles =
      (c.pidProfiles.map fixPidProfile).map fun p =>
        feedforwardFix c.rx.rcSmoothingEnabled c.rx.rcInterpolationChannels p := by
  rw [show (validateAndFixConfig e c).pidProfiles =
      (c.pidProfiles.map fixPidProfile).map fun p =>
        feedforwardFix
          (rssiFix (midFeatures e c).rssiAdc (midFeatures e c).rxPpm
            (midFeatures e c).rxParallelPwm c.rx).rcSmoothingEnabled
          (rssiFix (midFeatures e c).rssiAdc (midFeatures e c).rxPpm
            (midFeatures e c).rxParallelPwm c.rx).rcInterpolationChannels p
    from rfl]
  rw [(rssiFix_smoothing _ _ _ _).1, (rssiFix_smoothing _ _ _ _).2]

/-- The mixer repair is idempotent across full passes. -/
theorem V_mixer_idem (e : Env) (c : Config) :
    (validateAndFixConfig e (validateAndFixConfig e c)).mixer
      = (validateAndFixConfig e c).mixer := by
  rw [V_mixer e (validateAndFixConfig e c), V_mixer e c]
  dsimp only
  rw [mixerModeFix_idem]

/-- The serial repair is idempotent across full passes. -/
theorem V_serial_idem (e : Env) (c : Config) :
    (validateAndFixConfig e (validateAndFixConfig e c)).serial
      = (validateAndFixConfig e c).serial := by
  rw [V_serial e (validateAndFixConfig e c), V_gpsCfg, V_serial e c]
  exact serialChain_idem _ _

/-- The feature repair is idempotent across full passes. -/
theorem V_features_idem (e : Env) (c : Config) :
    (validateAndFixConfig e (validateAndFixConfig e c)).features
      = (validateAndFixConfig e c).features := by
  rw [V_features e (validateAndFixConfig e c), V_gpsCfg, V_serial,
    serialFix_gpsSerialFix, gpsSerialFix_idem, V_motor_dev, devChain_protocol,
    V_features e c]
  apply featuresChain_idem
  by_cases hp : c.gpsCfg.provider = GPS_MSP
  · exact Or.inl hp
  · right
    rw [gpsSerialFix_not_msp _ _ hp]

/-- The per-profile repairs are idempotent across full passes. -/
theorem V_pidProfiles_idem (e : Env) (c : Config) :
    (validateAndFixConfig e (validateAndFixConfig e c)).pidProfiles
      = (validateAndFixConfig e c).pidProfiles := by
  rw [V_pidProfiles e (validateAndFixConfig e c), V_rx e c,
    (rssiFix_smoothing _ _ _ _).1, (rssiFix_smoothing _ _ _ _).2,
    V_pidProfiles e c]
  simp only [List.map_map]
  apply List.map_congr_left
  intro p _
  simp only [Function.comp_apply]
  rw [fix_feedforward_comm, fixPidProfile_idem, feedforwardFix_idem]

/-- The motor repairs are idempotent across full passes. -/
theorem V_motor_idem (e : Env) (c : Config) :
    (validateAndFixConfig e (validateAndFixConfig e c)).motor
      = (validateAndFixConfig e c).motor := by
  apply MotorCfg.ext
  · rw [V_motor_dev e (validateAndFixConfig e c), V_system, indexFix_scheduler,
      V_motor_dev e c]
    exact devChain_idem _ _
  · rw [V_motor_mincommand e (validateAndFixConfig e c), V_motor_dev,
      devChain_protocol, V_motor_mincommand e c]
    exact brushedMincommandFix_idem _ _

/-- The gyro repairs are idempotent across full passes. -/
theorem V_gyro_idem (e : Env) (c : Config) :
    (validateAndFixConfig e (validateAndFixConfig e c)).gyro
      = (validateAndFixConfig e c).gyro := by
  rw [V_gyro e (validateAndFixConfig e c), V_gyro e c]
  exact gyroChain_idem _

/-- The PID-rate repairs are idempotent across full passes, provided a
DSHOT protocol is not combined with unsynced PWM on entry (the DSHOT
rule clears that flag after the loop-time rule already read it). -/
theorem V_pidCfg_idem (e : Env) (c : Config)
    (h1 : usingDshotProtocol c.motor.dev.motorPwmProtocol = true →
      c.motor.dev.useUnsyncedPwm = false) :
    (validateAndFixConfig e (validateAndFixConfig e c)).pidCfg
      = (validateAndFixConfig e c).pidCfg := by
  rw [V_pidCfg e (validateAndFixConfig e c), V_gyro e c, gyroChain_idem,
    (standardRateFix_fields _).1, (standardRateFix_fields _).2.1,
    V_motor_dev, devChain_protocol, devChain_unsynced]
  have hu : (if usingDshotProtocol c.motor.dev.motorPwmProtocol = true then false
      else c.motor.dev.useUnsyncedPwm) = c.motor.dev.useUnsyncedPwm := by
    split_ifs with h
    · exact (h1 h).symm
    · rfl
  rw [hu, V_pidCfg e c, (standardRateFix_fields _).1, (standardRateFix_fields _).2.1]
  rw [pid1khzFix_congr (fixGyroFilters (gyro1khzFix (fixGyroFilters c.gyro)))
      (gyro1khzFix (fixGyroFilters c.gyro)) _ (fixGyroFilters_lpf_sync _).1]
  rw [pid1khzFix_congr (fixGyroFilters c.gyro) (gyro1khzFix (fixGyroFilters c.gyro))
      c.pidCfg (by rw [gyro1khzFix_lpf, (fixGyroFilters_lpf_sync _).1])]
  exact pidCore_idem e _ _ _ _

/-- The profile-index repairs are idempotent across full passes. -/
theorem V_system_idem (e : Env) (c : Config) :
    (validateAndFixConfig e (validateAndFixConfig e c)).system
      = (validateAndFixConfig e c).system := by
  have hlen : ((validateAndFixConfig e c).pidProfiles.map fixPidProfile).length
      = (c.pidProfiles.map fixPidProfile).length := by
    rw [List.length_map, V_pidProfiles]
    simp
  rw [V_system e (validateAndFixConfig e c), hlen, V_system e c]
  exact indexFix_idem _ _

/-- The RSSI-source repair is idempotent across full passes. -/
theorem V_rx_idem (e : Env) (c : Config) :
    (validateAndFixConfig e (validateAndFixConfig e c)).rx
      = (validateAndFixConfig e c).rx := by
  rw [V_rx e (validateAndFixConfig e c), midFeatures_of_V_rssiAdc,
    midFeatures_of_V_rxPpm, midFeatures_of_V_rxParallelPwm, V_rx e c]
  exact rssiFix_idem _ _ _ _

/-- The failsafe repair is idempotent across full passes. -/
theorem V_failsafe_idem (e : Env) (c : Config) :
    (validateAndFixConfig e (validateAndFixConfig e c)).failsafe
      = (validateAndFixConfig e c).failsafe := by
  rw [V_failsafe e (validateAndFixConfig e c), midFeatures_of_V_threeD,
    midFeatures_of_V_gps, V_failsafe e c]
  exact rescueFailsafeFix_idem _ _

/-- The mode-activation repairs are idempotent across full passes when
no binding on entry is linked. -/
theorem V_macs_idem (e : Env) (c : Config)
    (h2 : ∀ m ∈ c.macs, m.linkedTo = 0) :
    (validateAndFixConfig e (validateAndFixConfig e c)).macs
      = (validateAndFixConfig e c).macs := by
  rw [V_macs e (validateAndFixConfig e c), midFeatures_of_V_threeD,
    midFeatures_of_V_gps, V_macs e c]
  exact macsChain_idem _ _ h2

/-- The beeper repair is idempotent across full passes. -/
theorem V_beeper_idem (e : Env) (c : Config) :
    (validateAndFixConfig e (validateAndFixConfig e c)).beeper
      = (validateAndFixConfig e c).beeper := by
  rw [V_beeper e (validateAndFixConfig e c), V_beeper e c]
  exact beeperFix_idem e _

/-- The OSD-timer repair is idempotent across full passes. -/
theorem V_osdTimers_idem (e : Env) (c : Config) :
    (validateAndFixConfig e (validateAndFixConfig e c)).osdTimers
      = (validateAndFixConfig e c).osdTimers := by
  rw [V_osdTimers e (validateAndFixConfig e c), V_osdTimers e c, List.map_map]
  apply List.map_congr_left
  intro t _
  simp only [Function.comp_apply]
  rw [osdTimerFix_idem]

/-- The VTX repair is idempotent across full passes. -/
theorem V_vtxSettings_idem (e : Env) (c : Config) :
    (validateAndFixConfig e (validateAndFixConfig e c)).vtxSettings
      = (validateAndFixConfig e c).vtxSettings := by
  rw [V_vtxSettings e (validateAndFixConfig e c), V_vtxTable, V_vtxSettings e c]
  exact vtxFix_idem _ _

/-- The compass-alignment repair is idempotent across full passes. -/
theorem V_compassAlign_idem (e : Env) (c : Config) :
    (validateAndFixConfig e (validateAndFixConfig e c)).compassAlign
      = (validateAndFixConfig e c).compassAlign := by
  rw [V_compassAlign e (validateAndFixConfig e c), V_compassAlign e c]
  dsimp only
  rw [buildAlignment_idem]

/-- The gyro-alignment repair is idempotent across full passes. -/
theorem V_gyroDev0Align_idem (e : Env) (c : Config) :
    (validateAndFixConfig e (validateAndFixConfig e c)).gyroDev0Align
      = (validateAndFixConfig e c).gyroDev0Align := by
  rw [V_gyroDev0Align e (validateAndFixConfig e c), V_gyroDev0Align e c]
  dsimp only
  rw [buildAlignment_idem]

/-- The PID-profile pointer reload is idempotent across full passes. -/
theorem V_currentPid_idem (e : Env) (c : Config) :
    (validateAndFixConfig e (validateAndFixConfig e c)).currentPidProfileIndex
      = (validateAndFixConfig e c).currentPidProfileIndex := by
  have hlen : ((validateAndFixConfig e c).pidProfiles.map fixPidProfile).length
      = (c.pidProfiles.map fixPidProfile).length := by
    rw [List.length_map, V_pidProfiles]
    simp
  rw [V_currentPidProfileIndex e (validateAndFixConfig e c), hlen, V_system e c,
    indexFix_idem, V_currentPidProfileIndex e c]

/-- The rate-profile pointer reload is idempotent across full passes. -/
theorem V_currentRate_idem (e : Env) (c : Config) :
    (validateAndFixConfig e (validateAndFixConfig e c)).currentRateProfileIndex
      = (validateAndFixConfig e c).currentRateProfileIndex := by
  have hlen : ((validateAndFixConfig e c).pidProfiles.map fixPidProfile).length
      = (c.pidProfiles.map fixPidProfile).length := by
    rw [List.length_map, V_pidProfiles]
    simp
  rw [V_currentRateProfileIndex e (validateAndFixConfig e c), hlen, V_system e c,
    indexFix_idem, V_currentRateProfileIndex e c]

/-- C3 (amended): `validateAndFixConfig` is idempotent on every
configuration in which a DSHOT protocol is not combined with unsynced
PWM on entry and no mode-activation condition is linked; without the
first hypothesis the run order (loop-time rule before the DSHOT rule
that clears `useUnsyncedPwm`) makes a second pass raise
`pid_process_denom` again, and without the second the removal loop can
compact the condition array differently on the second pass. -/
theorem validateAndFixConfig_idempotent_amended (e : Env) (c : Config)
    (h1 : usingDshotProtocol c.motor.dev.motorPwmProtocol = true →
      c.motor.dev.useUnsyncedPwm = false)
    (h2 : ∀ m ∈ c.macs, m.linkedTo = 0) :
    validateAndFixConfig e (validateAndFixConfig e c)
      = validateAndFixConfig e c := by
  apply Config.ext
  · exact V_mixer_idem e c
  · exact V_serial_idem e c
  · rfl
  · exact V_features_idem e c
  · exact V_pidProfiles_idem e c
  · exact V_motor_idem e c
  · exact V_gyro_idem e c
  · exact V_pidCfg_idem e c h1
  · exact V_system_idem e c
  · exact V_rx_idem e c
  · exact V_failsafe_idem e c
  · exact V_macs_idem e c h2
  · exact V_beeper_idem e c
  · exact V_osdTimers_idem e c
  · exact V_vtxSettings_idem e c
  · rfl
  · exact V_compassAlign_idem e c
  · exact V_gyroDev0Align_idem e c
  · exact V_currentPid_idem e c
  · exact V_currentRate_idem e c

/-- The amended idempotence theorem applied to the default
configuration, whose protocol is not DSHOT and whose mode-activation
conditions are all unlinked. -/
theorem validateAndFixConfig_idempotent_amended_witness :
    (usingDshotProtocol defaultConfig.motor.dev.motorPwmProtocol = true →
      defaultConfig.motor.dev.useUnsyncedPwm = false) ∧
    (∀ m ∈ defaultConfig.macs, m.linkedTo = 0) ∧
    validateAndFixConfig testEnv (validateAndFixConfig testEnv defaultConfig)
      = validateAndFixConfig testEnv defaultConfig :=
  ⟨by decide, by decide,
    validateAndFixConfig_idempotent_amended testEnv defaultConfig
      (by decide) (by decide)⟩

end BF
